import Mathlib

set_option maxHeartbeats 400000

/-!
# OrbitalBackend: TLE scrapper and batch propagator

A shallow embedding of `src/orbitsScrapper.js` and `src/orbitsCalc.js`.

* JavaScript strings that the code inspects (response bodies, TLE lines, names) are lists of
  characters (`Text`); fixed diagnostic messages are Lean strings.
* A function body is a state transformer over `World` that either completes or throws
  (`JS α`); the world reached when an exception is thrown is kept, as in JavaScript.
* Network peers and the libraries `axios`, `tle.js`, `satellite.js` and `fs` are described by
  oracles (`Oracle`, `CalcOracle`): each call either returns a value or throws.
* The definitions come first; the results, ending with one theorem per claim, follow.
-/

namespace OrbitalBackend

/-! ## Text -/

/-- JavaScript string contents. -/
abbrev Text := List Char

/-- Characters removed by `String.prototype.trim`: ECMAScript WhiteSpace and LineTerminator. -/
def isTrimChar (c : Char) : Bool :=
  c.toNat = 0x09 || c.toNat = 0x0A || c.toNat = 0x0B || c.toNat = 0x0C || c.toNat = 0x0D ||
  c.toNat = 0x20 || c.toNat = 0xA0 || c.toNat = 0x1680 ||
  (0x2000 ≤ c.toNat && c.toNat ≤ 0x200A) ||
  c.toNat = 0x2028 || c.toNat = 0x2029 || c.toNat = 0x202F || c.toNat = 0x205F ||
  c.toNat = 0x3000 || c.toNat = 0xFEFF

/-- The method `s.trim()`. -/
def trim (s : Text) : Text :=
  ((s.dropWhile isTrimChar).reverse.dropWhile isTrimChar).reverse

/-- The method `s.split(sep)` for a one-character separator; the result is never empty. -/
def split (sep : Char) : Text → List Text
  | [] => [[]]
  | c :: cs =>
    if c = sep then [] :: split sep cs
    else
      match split sep cs with
      | [] => [[c]]
      | l :: ls => (c :: l) :: ls

/-- The method `parts.join(sep)`. -/
def join (sep : Text) : List Text → Text
  | [] => []
  | [p] => p
  | p :: q :: ps => p ++ sep ++ join sep (q :: ps)

/-- Decimal rendering of a non-negative integer inside a template literal. -/
def numberToText (n : Nat) : Text := (Nat.repr n).toList

/-- The regular expression class `[A-Z]`. -/
def isUpperAZ (c : Char) : Bool := 'A'.toNat ≤ c.toNat && c.toNat ≤ 'Z'.toNat

/-- The pattern `/ {2}(?=[A-Z])/` matches at the start of the text: two spaces, then a letter
`A`-`Z`. -/
def matchesAtStart : Text → Bool
  | a :: b :: d :: _ => a = ' ' && b = ' ' && isUpperAZ d
  | _ => false

/-- The call `s.replace(/ {2}(?=[A-Z])/g, '')`: a single left-to-right pass; where the pattern
matches, the two spaces are deleted and the scan resumes at the letter after them (which the
lookahead did not consume), otherwise the current character is kept. -/
def replaceDoubleSpaceBeforeUpper : Text → Text
  | a :: b :: d :: rest =>
    if matchesAtStart (a :: b :: d :: rest) then replaceDoubleSpaceBeforeUpper (d :: rest)
    else a :: replaceDoubleSpaceBeforeUpper (b :: d :: rest)
  | a :: rest => a :: replaceDoubleSpaceBeforeUpper rest
  | [] => []

/-- The text contains two consecutive spaces immediately followed by a letter `A`-`Z`,
that is, the pattern `/ {2}(?=[A-Z])/` has a match somewhere in it. -/
def hasDoubleSpaceBeforeUpper : Text → Bool
  | [] => false
  | a :: rest => matchesAtStart (a :: rest) || hasDoubleSpaceBeforeUpper rest

/-- The text starts with four spaces followed by a letter `A`-`Z`. -/
def quadAtStart : Text → Bool
  | a :: b :: rest => a = ' ' && b = ' ' && matchesAtStart rest
  | _ => false

/-- The text contains four consecutive spaces immediately followed by a letter `A`-`Z`. -/
def hasQuadSpaceBeforeUpper : Text → Bool
  | [] => false
  | a :: rest => quadAtStart (a :: rest) || hasQuadSpaceBeforeUpper rest

/-- The text starts with a letter `A`-`Z`. -/
def headIsUpper : Text → Bool
  | d :: _ => isUpperAZ d
  | [] => false

/-- The normalization of the first element line in `fetchNORADTLEs` (line 150):
`tleLines[i].trim().replace(/ {2}(?=[A-Z])/g, '')`. -/
def normalizeLine1 (raw : Text) : Text := replaceDoubleSpaceBeforeUpper (trim raw)

/-! ## Values, errors and the world -/

/-- A thrown JavaScript value. -/
inductive JsError where
  /-- A `TypeError` raised by the runtime itself. -/
  | typeError (message : String)
  /-- An object built with `new Error(message)` by the program. -/
  | error (message : String)
  /-- An exception or promise rejection coming from a library (`axios`, `tle.js`, `fs`). -/
  | library (message : String)
  deriving DecidableEq

/-- The object returned by `tlejs.getSatelliteInfo`; what the library computes is kept as one
abstract `payload`, and `name` is the object's `name` property when it has one. -/
structure SatInfo where
  payload : Nat
  name : Option Text := none
  deriving DecidableEq

/-- One element of the SatNOGS JSON array. -/
structure SatnogsSat where
  tle0 : Text
  tle1 : Text
  tle2 : Text
  deriving DecidableEq

/-- The object pushed to `satellites` in `estimOrbitByTLEs` (lines 41-47). Numbers are only
handed from one `satellite.js` call to the next, so they are kept as abstract integers. -/
structure OrbitInfo where
  name : Text
  latitude : Int
  longitude : Int
  altitude : Int
  deriving DecidableEq

/-- What a file holds after `fs.writeFileSync`: plain text, or the `JSON.stringify` of an
array. -/
inductive FileContent where
  | text (data : Text)
  | satellitesJson (satellites : List SatInfo)
  | satnogsJson (satellites : List (Option SatnogsSat))
  | orbitsJson (satellites : List OrbitInfo)
  deriving DecidableEq

/-- One line appended to `ERR_LOG_FILE`, by the template it is built from. -/
inductive LogEntry where
  /-- Line 39: `Error parsing TLE (id: i, name: name): error`. -/
  | celestrakParse (i : Nat) (name : Text) (error : JsError)
  /-- Line 50: `Error fetching or parsing Celestrak TLEs: error`. -/
  | celestrakFetch (error : JsError)
  /-- Line 68: `No SatNOGS satellites found`. -/
  | satnogsEmpty
  /-- Line 88: `Error fetching SatNOGS TLEs: error`. -/
  | satnogsFetch (error : JsError)
  /-- Line 160: `Error parsing TLE (line: i + 1, name: name): error`. -/
  | noradParse (line : Nat) (name : Text) (error : JsError)
  /-- Line 175: `Error fetching NORAD TLEs: error`. -/
  | noradFetch (error : JsError)
  deriving DecidableEq

/-- One line written to the console. -/
inductive ConsoleLine where
  | log (message : String)
  | warn (message : String) (name : Text)
  | error (message : String) (error : Option JsError)
  /-- Line 193: the ISO rendering of the date followed by `Waiting for an hour...`. -/
  | waiting (date : Nat)
  deriving DecidableEq

/-- A network request issued through `axios`. -/
inductive Request where
  | celestrak
  | satnogs
  | spaceTrackLogin (data : Text)
  | spaceTrackQuery (cookie : Text)
  deriving DecidableEq

/-- The three adapters called from `main`. -/
inductive Adapter where
  | fetchNORADTLEs
  | fetchAndParseCelesTrackTLEs
  | fetchAndParseSatNOGSTLEs
  deriving DecidableEq

/-- The module-level object `db_updates` (line 6); a missing key is `none`. -/
structure DbUpdates where
  celestrak : Option Nat := none
  satnogs : Option Nat := none
  norad : Option Nat := none
  latest : Option Nat := none
  deriving DecidableEq

/-- Everything the program can change or cause. `requests`, `calls` and `sleeps` record, oldest
first, the network requests issued, the adapters invoked by `main` and the timers awaited. -/
structure World where
  db_updates : DbUpdates := {}
  files : String → Option FileContent := fun _ => none
  errLog : List LogEntry := []
  console : List ConsoleLine := []
  requests : List Request := []
  calls : List Adapter := []
  sleeps : List Nat := []

/-- Name of the error log file (line 5). -/
def ERR_LOG_FILE : String := "error.log"

/-- Response of the Space-Track login request. -/
structure AuthResponse where
  status : Nat
  setCookie : Option (List Text)
  deriving DecidableEq

/-- Response of the Space-Track query request. -/
structure QueryResponse where
  status : Nat
  data : Text
  deriving DecidableEq

/-- The process environment read by the scrapper; an unset variable is `none`. -/
structure ProcessEnv where
  SPACETRACK_USERNAME : Option Text
  SPACETRACK_PASSWORD : Option Text

/-- Behaviour of everything outside the program during one cycle. -/
structure Oracle where
  /-- Outcome of `axios.get` on the CelesTrak URL: `response.data`, or a rejection. -/
  celestrak : Except JsError Text
  /-- Outcome of `axios.get` on the SatNOGS URL; a `null` array element is `none`. -/
  satnogs : Except JsError (List (Option SatnogsSat))
  /-- Outcome of the login request for the given form body. -/
  spaceTrackLogin : Text → Except JsError AuthResponse
  /-- Outcome of the query request for the given cookie header. -/
  spaceTrackQuery : Text → Except JsError QueryResponse
  /-- Behaviour of `tlejs.getSatelliteInfo` on a two-line text. -/
  getSatelliteInfo : Text → Except JsError SatInfo
  /-- Whether `fs.writeFileSync` / `fs.appendFileSync` on the named file throws. -/
  fsFails : String → Bool
  /-- The time, in epoch milliseconds, that a `Date` object built during the cycle holds. -/
  date : Nat

/-! ## Computations -/

/-- A piece of JavaScript run against the world: it completes with a value or throws, and the
effects made before a throw stay. -/
def JS (α : Type) : Type := World → Except JsError α × World

namespace JS

/-- Normal completion. -/
def pure {α : Type} (a : α) : JS α := fun w => (.ok a, w)

/-- Sequencing: the continuation is skipped when the first part throws. -/
def bind {α β : Type} (x : JS α) (f : α → JS β) : JS β := fun w =>
  match x w with
  | (.ok a, w1) => f a w1
  | (.error e, w1) => (.error e, w1)

/-- The statement `throw e`. -/
def throw {α : Type} (e : JsError) : JS α := fun w => (.error e, w)

/-- The statement `try { body } catch (error) { handler }`. -/
def tryCatch {α : Type} (body : JS α) (handler : JsError → JS α) : JS α := fun w =>
  match body w with
  | (.ok a, w1) => (.ok a, w1)
  | (.error e, w1) => handler e w1

/-- Completion of a library call whose outcome the oracle gives. -/
def ofExcept {α : Type} (r : Except JsError α) : JS α := fun w => (r, w)

/-- Change of the world that cannot throw. -/
def modify (f : World → World) : JS Unit := fun w => (.ok (), f w)

/-- Read of the world. -/
def read : JS World := fun w => (.ok w, w)

end JS

instance : Monad JS where
  pure := JS.pure
  bind := JS.bind

/-- The loop `for (let i = 0; i < n; i += step)`: the values `i` takes, in order. -/
def loopIndices (n step : Nat) : List Nat :=
  (List.range ((n + step - 1) / step)).map (fun k => k * step)

/-- Runs `body i` for each index in turn, threading the loop's local state; a throw leaves
the loop. -/
def forEachIndex {σ : Type} (body : Nat → σ → JS σ) : List Nat → σ → JS σ
  | [], s => JS.pure s
  | i :: rest, s => JS.bind (body i s) (forEachIndex body rest)

/-! ## Runtime and library primitives -/

/-- Truthiness of a `db_updates` entry: `undefined` and `0` are falsy. -/
def truthyNumber : Option Nat → Bool
  | some t => t != 0
  | none => false

/-- Truthiness of an environment variable: `undefined` and the empty string are falsy. -/
def truthyText : Option Text → Bool
  | some s => !s.isEmpty
  | none => false

/-- The expression `new Date().now()`. `now` is a static method of the `Date` constructor;
a `Date` instance and `Date.prototype` have no property `now`, so the callee is `undefined`
and the call throws a `TypeError` whatever the time is. -/
def newDateNow : JS Nat :=
  JS.throw (.typeError "(intermediate value).now is not a function")

/-- The expression `Math.floor(new Date().now() / 1000)`. -/
def epochSeconds : JS Nat := do
  let ms ← newDateNow
  pure (ms / 1000)

/-- The call `x.trim()` on an array element: `undefined` (index out of range) has no
properties, so the call throws. -/
def trimElement (x : Option Text) : JS Text :=
  match x with
  | some s => pure (trim s)
  | none => JS.throw (.typeError "Cannot read properties of undefined (reading 'trim')")

/-- The statement `console.log(message)`. -/
def consoleLog (message : String) : JS Unit :=
  JS.modify fun w => { w with console := w.console ++ [.log message] }

/-- The statement `console.error(message, error)`. -/
def consoleError (message : String) (error : Option JsError) : JS Unit :=
  JS.modify fun w => { w with console := w.console ++ [.error message error] }

/-- The statement `console.warn`. -/
def consoleWarn (message : String) (name : Text) : JS Unit :=
  JS.modify fun w => { w with console := w.console ++ [.warn message name] }

/-- The call `fs.writeFileSync(file, content)`: replaces the file, or throws. -/
def writeFileSync (fsFails : String → Bool) (file : String) (content : FileContent) :
    JS Unit := fun w =>
  if fsFails file then (.error (.library "EACCES"), w)
  else (.ok (), { w with files := fun f => if f = file then some content else w.files f })

/-- The call `fs.appendFileSync(ERR_LOG_FILE, entry)`: adds one line, or throws. -/
def appendErrLog (fsFails : String → Bool) (entry : LogEntry) : JS Unit := fun w =>
  if fsFails ERR_LOG_FILE then (.error (.library "EACCES"), w)
  else (.ok (), { w with errLog := w.errLog ++ [entry] })

/-- An awaited `axios` call: the request is issued, then the oracle's outcome is delivered. -/
def axios {α : Type} (request : Request) (outcome : Except JsError α) : JS α := fun w =>
  (outcome, { w with requests := w.requests ++ [request] })

/-! ## `orbitsScrapper.js` -/

/-- The guard expression of lines 10, 56 and 94:
`db_updates[key] && (Math.floor(new Date().now() / 1000) - db_updates[key]) < limit`.
The right operand of `&&` is evaluated only when the entry is truthy. -/
def updatedWithin (entry : Option Nat) (limit : Nat) : JS Bool :=
  if truthyNumber entry then do
    let now ← epochSeconds
    pure (decide ((now : Int) - ((entry.getD 0 : Nat) : Int) < (limit : Int)))
  else pure false

/-- Body of the loop of lines 26-41, for the index `i` and the array `satellites` so far. -/
def celestrakBlock (o : Oracle) (tleLines : List Text) (i : Nat) (satellites : List SatInfo) :
    JS (List SatInfo) := do
  let name ← trimElement tleLines[i]?
  let line1 ← trimElement tleLines[i + 1]?
  let line2 ← trimElement tleLines[i + 2]?
  let tle := line1 ++ ['\n'] ++ line2
  JS.tryCatch
    (do
      let satInfo ← JS.ofExcept (o.getSatelliteInfo tle)
      pure (satellites ++ [{ satInfo with name := some name }]))
    (fun error => do
      appendErrLog o.fsFails (.celestrakParse i name error)
      pure satellites)

/-- The function `fetchAndParseCelesTrackTLEs` (lines 8-52). -/
def fetchAndParseCelesTrackTLEs (o : Oracle) : JS Unit :=
  JS.tryCatch
    (do
      let w ← JS.read
      let recent ← updatedWithin w.db_updates.celestrak 3600
      if recent then
        consoleLog "Celestrak TLEs already updated within the last hour"
      else do
        let data ← axios .celestrak o.celestrak
        writeFileSync o.fsFails "celestrak_tles.txt" (.text data)
        consoleLog "Celestrak TLEs saved to celestrak_tles.txt"
        let tleLines := split '\n' (trim data)
        let satellites ←
          forEachIndex (celestrakBlock o tleLines) (loopIndices tleLines.length 3) []
        writeFileSync o.fsFails "celestrak_tles.json" (.satellitesJson satellites)
        consoleLog "Parsed Celestrak TLEs saved to celestrak_tles.json"
        let now ← epochSeconds
        JS.modify fun w => { w with db_updates := { w.db_updates with celestrak := some now } })
    (fun error => do
      consoleError "Error fetching or parsing Celestrak TLEs:" (some error)
      appendErrLog o.fsFails (.celestrakFetch error))

/-- The loop of lines 77-79: `tleData += sat.tle0 + newline + sat.tle1 + newline + sat.tle2 +
newline`; reading a property of a `null` element throws. -/
def collectTleData : List (Option SatnogsSat) → Text → JS Text
  | [], tleData => JS.pure tleData
  | none :: _, _ => JS.throw (.typeError "Cannot read properties of null (reading 'tle0')")
  | some sat :: rest, tleData =>
    collectTleData rest (tleData ++ sat.tle0 ++ ['\n'] ++ sat.tle1 ++ ['\n'] ++ sat.tle2 ++ ['\n'])

/-- The function `fetchAndParseSatNOGSTLEs` (lines 54-90). -/
def fetchAndParseSatNOGSTLEs (o : Oracle) : JS Unit :=
  JS.tryCatch
    (do
      let w ← JS.read
      let recent ← updatedWithin w.db_updates.satnogs 3600
      if recent then
        consoleLog "SatNOGS TLEs already updated within the last hour"
      else do
        let satellites ← axios .satnogs o.satnogs
        if satellites.length = 0 ∨ satellites.head? = some none then do
          appendErrLog o.fsFails .satnogsEmpty
          JS.throw (.error "No SatNOGS satellites found")
        else do
          writeFileSync o.fsFails "satnogs_tles.json" (.satnogsJson satellites)
          let tleData ← collectTleData satellites []
          writeFileSync o.fsFails "satnogs_tles.txt" (.text tleData)
          consoleLog "SatNOGS TLEs saved to satnogs_tles.txt"
          let now ← epochSeconds
          JS.modify fun w => { w with db_updates := { w.db_updates with satnogs := some now } })
    (fun error => do
      consoleError "Error fetching SatNOGS TLEs:" (some error)
      appendErrLog o.fsFails (.satnogsFetch error))

/-- The value `Math.ceil(i / 2)` for a non-negative integer `i`. -/
def ceilHalf (i : Nat) : Nat := (i + 1) / 2

/-- The name synthesized on line 149 for the block starting at index `i`. -/
def noradName (i : Nat) : Text := "NORAD_SAT_".toList ++ numberToText (ceilHalf i)

/-- Body of the loop of lines 148-162, for the index `i` and the arrays `satellites` and
`linesToSave` so far. -/
def noradBlock (o : Oracle) (tleLines : List Text) (i : Nat)
    (acc : List SatInfo × List Text) : JS (List SatInfo × List Text) := do
  let name := noradName i
  let trimmed ← trimElement tleLines[i]?
  let line1 := replaceDoubleSpaceBeforeUpper trimmed
  let line2 ← trimElement tleLines[i + 1]?
  let linesToSave := acc.2 ++ [name ++ ['\n'] ++ line1 ++ ['\n'] ++ line2]
  let tle := line1 ++ ['\n'] ++ line2
  JS.tryCatch
    (do
      let satInfo ← JS.ofExcept (o.getSatelliteInfo tle)
      pure (acc.1 ++ [satInfo], linesToSave))
    (fun error => do
      appendErrLog o.fsFails (.noradParse (i + 1) name error)
      pure (acc.1, linesToSave))

/-- The form body of line 112: `identity=USERNAME&password=PASSWORD`. -/
def loginForm (penv : ProcessEnv) : Text :=
  "identity=".toList ++ penv.SPACETRACK_USERNAME.getD [] ++
    "&password=".toList ++ penv.SPACETRACK_PASSWORD.getD []

/-- The cookie header of line 123: `cookies.map(cookie => cookie.split(';')[0]).join('; ')`. -/
def cookieHeader (cookies : List Text) : Text :=
  join "; ".toList (cookies.map fun cookie => (split ';' cookie).headD [])

/-- The function `fetchNORADTLEs` (lines 92-177). -/
def fetchNORADTLEs (penv : ProcessEnv) (o : Oracle) : JS Unit :=
  JS.tryCatch
    (do
      let w ← JS.read
      let recent ← updatedWithin w.db_updates.norad 86400
      if recent then
        consoleLog "NORAD TLEs already updated within the last day"
      else if !truthyText penv.SPACETRACK_USERNAME || !truthyText penv.SPACETRACK_PASSWORD then
        JS.throw (.error "Please provide Space-Track.org credentials")
      else do
        let form := loginForm penv
        let authResponse ← axios (.spaceTrackLogin form) (o.spaceTrackLogin form)
        if authResponse.status ≠ 200 then
          JS.throw (.error "Failed to authenticate with Space-Track.org.")
        else do
          consoleLog "Authenticated with Space-Track.org..."
          match authResponse.setCookie with
          | none => JS.throw (.typeError "Cannot read properties of undefined (reading 'map')")
          | some cookies =>
            let cookieString := cookieHeader cookies
            let response ← axios (.spaceTrackQuery cookieString) (o.spaceTrackQuery cookieString)
            if response.status ≠ 200 then
              JS.throw (.error "Failed to fetch NORAD TLEs.")
            else do
              let data := response.data
              writeFileSync o.fsFails "norad_tles_raw.txt" (.text data)
              let tleLines := split '\n' (trim data)
              let acc ←
                forEachIndex (noradBlock o tleLines) (loopIndices tleLines.length 2) ([], [])
              writeFileSync o.fsFails "norad_tles.txt" (.text (join ['\n'] acc.2))
              consoleLog "NORAD TLEs saved to norad_tles.txt"
              writeFileSync o.fsFails "norad_tles.json" (.satellitesJson acc.1)
              consoleLog "Parsed NORAD TLEs saved to norad_tles.json"
              let now ← epochSeconds
              JS.modify fun w => { w with db_updates := { w.db_updates with norad := some now } })
    (fun error => do
      consoleError "Error fetching NORAD TLEs:" (some error)
      appendErrLog o.fsFails (.noradFetch error))

/-- A call of an adapter from `main`; the call is recorded in `calls`. -/
def invoke (a : Adapter) (body : JS Unit) : JS Unit :=
  JS.bind (JS.modify fun w => { w with calls := w.calls ++ [a] }) fun _ => body

/-- The statement `await new Promise(resolve => setTimeout(resolve, ms))`. -/
def sleep (ms : Nat) : JS Unit :=
  JS.modify fun w => { w with sleeps := w.sleeps ++ [ms] }

/-- Body of the `while (42)` loop of `main` (lines 184-194). -/
def mainLoopBody (penv : ProcessEnv) (o : Oracle) : JS Unit := do
  JS.tryCatch (invoke .fetchNORADTLEs (fetchNORADTLEs penv o))
    (fun error => consoleError "Error:" (some error))
  JS.tryCatch (invoke .fetchAndParseCelesTrackTLEs (fetchAndParseCelesTrackTLEs o))
    (fun error => consoleError "Error:" (some error))
  JS.tryCatch (invoke .fetchAndParseSatNOGSTLEs (fetchAndParseSatNOGSTLEs o))
    (fun error => consoleError "Error:" (some error))
  let now ← epochSeconds
  JS.modify fun w => { w with db_updates := { w.db_updates with latest := some now } }
  JS.modify fun w => { w with console := w.console ++ [.waiting o.date] }
  sleep 3600000

/-- How a run of `main` stands: it returned, its promise was rejected with an exception that
left the loop, or the loop is still running after the iterations looked at. -/
inductive MainOutcome where
  | returned
  | rejected (error : JsError)
  | running
  deriving DecidableEq

/-- The loop `while (42) { body }`, followed for at most `fuel` iterations starting with
iteration `k`. The condition `42` is truthy, so only a throw leaves the loop. -/
def whileTrue (body : Nat → JS Unit) : Nat → Nat → World → MainOutcome × World
  | 0, _, w => (.running, w)
  | fuel + 1, k, w =>
    match body k w with
    | (.ok _, w1) => whileTrue body fuel (k + 1) w1
    | (.error e, w1) => (.rejected e, w1)

/-- The function `main` (lines 179-196); `oracles k` describes the outside during iteration
`k`, and `fuel` bounds the number of iterations followed. -/
def main (penv : ProcessEnv) (oracles : Nat → Oracle) (fuel : Nat) (w : World) :
    MainOutcome × World :=
  if !truthyText penv.SPACETRACK_USERNAME || !truthyText penv.SPACETRACK_PASSWORD then
    (.returned, (consoleError "Please provide Space-Track.org credentials" none w).2)
  else whileTrue (fun k => mainLoopBody penv (oracles k)) fuel 0 w

/-! ## `orbitsCalc.js` -/

/-- A position or velocity vector of `satellite.js`. -/
structure Vec3 where
  x : Int
  y : Int
  z : Int
  deriving DecidableEq

/-- The object returned by `satellite.propagate`: a property that is missing or `false` is
`none`. -/
structure PositionAndVelocity where
  position : Option Vec3
  velocity : Option Vec3
  deriving DecidableEq

/-- The object returned by `satellite.eciToGeodetic`. -/
structure Geodetic where
  latitude : Int
  longitude : Int
  height : Int
  deriving DecidableEq

/-- Behaviour of `fs` and `satellite.js` during one run of `estimOrbitByTLEs`: every library
call either returns a value or throws. -/
structure CalcOracle where
  /-- Outcome of `fs.readFileSync(file, 'utf8')`. -/
  readFileSync : String → Except JsError Text
  /-- Whether `fs.writeFileSync` on the named file throws. -/
  fsFails : String → Bool
  /-- The time held by the `new Date()` of line 22 in the iteration with index `i`. -/
  date : Nat → Nat
  /-- Outcome of `satellite.twoline2satrec(line1, line2)`; the record is kept abstract. -/
  twoline2satrec : Text → Text → Except JsError Nat
  /-- Outcome of `satellite.propagate(satrec, now)`; a returned `null` or `undefined` is
  `none`. -/
  propagate : Nat → Nat → Except JsError (Option PositionAndVelocity)
  /-- Outcome of `satellite.gstime(now)`. -/
  gstime : Nat → Except JsError Int
  /-- Outcome of `satellite.eciToGeodetic(position, gmst)`. -/
  eciToGeodetic : Vec3 → Int → Except JsError Geodetic
  /-- Outcome of `satellite.degreesLat(radians)`. -/
  degreesLat : Int → Except JsError Int
  /-- Outcome of `satellite.degreesLong(radians)`. -/
  degreesLong : Int → Except JsError Int

/-- Body of the loop of lines 13-53, for the index `i` and the array `satellites` so far. None
of the library calls stands in a `try` of its own. -/
def estimBlock (c : CalcOracle) (tleLines : List Text) (i : Nat) (satellites : List OrbitInfo) :
    JS (List OrbitInfo) := do
  let name ← trimElement tleLines[i]?
  let line1 ← trimElement tleLines[i + 1]?
  let line2 ← trimElement tleLines[i + 2]?
  let satrec ← JS.ofExcept (c.twoline2satrec line1 line2)
  let now := c.date i
  let result ← JS.ofExcept (c.propagate satrec now)
  match result with
  | none => JS.throw (.typeError "Cannot read properties of null (reading 'position')")
  | some positionAndVelocity =>
    match positionAndVelocity.position, positionAndVelocity.velocity with
    | some position, some _ => do
      let gmst ← JS.ofExcept (c.gstime now)
      let positionGd ← JS.ofExcept (c.eciToGeodetic position gmst)
      let latitude ← JS.ofExcept (c.degreesLat positionGd.latitude)
      let longitude ← JS.ofExcept (c.degreesLong positionGd.longitude)
      let altitude := positionGd.height
      pure (satellites ++
        [{ name := name, latitude := latitude, longitude := longitude, altitude := altitude }])
    | _, _ => do
      consoleWarn "Propagation failed for satellite:" name
      pure satellites

/-- The function `estimOrbitByTLEs` (lines 5-61); the default of `outputOrbitsFile` is
`estim_orbits.json`. -/
def estimOrbitByTLEs (c : CalcOracle) (tleFile : String)
    (outputOrbitsFile : String := "estim_orbits.json") : JS Unit :=
  JS.tryCatch
    (do
      let data ← JS.ofExcept (c.readFileSync tleFile)
      let tleLines := split '\n' (trim data)
      let satellites ← forEachIndex (estimBlock c tleLines) (loopIndices tleLines.length 3) []
      writeFileSync c.fsFails outputOrbitsFile (.orbitsJson satellites)
      consoleLog "Parsed NORAD TLEs saved to norad_tles.json")
    (fun error => consoleError "Error fetching or parsing NORAD TLEs:" (some error))

/-! ## Notions used to state the results -/

/-- The spec's `isDue`: a source is due when its last success time is unset or when
`now - lastSuccessTimestamp >= cadence`. -/
def isDue (lastSuccessTimestamp : Option Nat) (now cadence : Nat) : Bool :=
  match lastSuccessTimestamp with
  | none => true
  | some t => decide ((cadence : Int) ≤ (now : Int) - (t : Int))

/-- The guard at the top of an adapter lets the fetch proceed: the guard expression is
evaluated without a throw and is falsy, so the early `return` is not taken. -/
def guardPasses (entry : Option Nat) (limit : Nat) (w : World) : Prop :=
  updatedWithin entry limit w = (.ok false, w)

/-- The states of the module `orbitsScrapper.js` at the calls of its adapters. `db_updates` is
a constant private to the module and the module exports nothing, so a state arises only from
the initial one (`db_updates = {}`, nothing written) through the module's own code: runs of
the adapters, whatever the outside world does, and, in `main`, the call of an adapter and the
`console.error` of a `catch`. -/
inductive Reachable : World → Prop where
  | start : Reachable {}
  | afterNORAD (penv : ProcessEnv) (o : Oracle) {w : World} :
      Reachable w → Reachable (fetchNORADTLEs penv o w).2
  | afterCelesTrak (o : Oracle) {w : World} :
      Reachable w → Reachable (fetchAndParseCelesTrackTLEs o w).2
  | afterSatNOGS (o : Oracle) {w : World} :
      Reachable w → Reachable (fetchAndParseSatNOGSTLEs o w).2
  | afterInvoke (a : Adapter) {w : World} :
      Reachable w → Reachable { w with calls := w.calls ++ [a] }
  | afterConsoleError (message : String) (error : Option JsError) {w : World} :
      Reachable w → Reachable (consoleError message error w).2

/-- The computation `x` leaves the observation `f` of the world as it was, whether it
completes or throws. -/
def Keeps {α β : Type} (f : World → β) (x : JS α) : Prop :=
  ∀ w, f (x w).2 = f w

/-- The computation `x` only adds to the list of requests issued. -/
def Grows {α : Type} (x : JS α) : Prop :=
  ∀ w, w.requests <+: (x w).2.requests

/-- Name line of the 3-line block number `k` (counted from 0), as the loops read it. -/
def blockName3 (tleLines : List Text) (k : Nat) : Text :=
  trim (tleLines.getD (3 * k) [])

/-- The two element lines of the 3-line block number `k`, trimmed and joined by a newline. -/
def blockTle3 (tleLines : List Text) (k : Nat) : Text :=
  trim (tleLines.getD (3 * k + 1) []) ++ ['\n'] ++ trim (tleLines.getD (3 * k + 2) [])

/-- The record the CelesTrak loop pushes for block `k`, if the parser accepts the block. -/
def celestrakRecord (o : Oracle) (tleLines : List Text) (k : Nat) : Option SatInfo :=
  match o.getSatelliteInfo (blockTle3 tleLines k) with
  | .ok satInfo => some { satInfo with name := some (blockName3 tleLines k) }
  | .error _ => none

/-- The error-log line the CelesTrak loop appends for block `k`, if the parser rejects it. -/
def celestrakParseError (o : Oracle) (tleLines : List Text) (k : Nat) : Option LogEntry :=
  match o.getSatelliteInfo (blockTle3 tleLines k) with
  | .ok _ => none
  | .error e => some (.celestrakParse (3 * k) (blockName3 tleLines k) e)

/-- The two element lines of the 2-line block number `k` as `fetchNORADTLEs` hands them to the
parser: the first normalized, the second trimmed. -/
def blockTle2 (tleLines : List Text) (k : Nat) : Text :=
  normalizeLine1 (tleLines.getD (2 * k) []) ++ ['\n'] ++ trim (tleLines.getD (2 * k + 1) [])

/-- The name `NORAD_SAT_k`. -/
def noradSatName (k : Nat) : Text := "NORAD_SAT_".toList ++ numberToText k

/-- The entry of `linesToSave` for the 2-line block number `k`: the synthesized name, then
the two element lines. -/
def noradSavedBlock (tleLines : List Text) (k : Nat) : Text :=
  noradSatName k ++ ['\n'] ++ blockTle2 tleLines k

/-- The record the space-data-center loop pushes for block `k`, if the parser accepts it. -/
def noradRecord (o : Oracle) (tleLines : List Text) (k : Nat) : Option SatInfo :=
  match o.getSatelliteInfo (blockTle2 tleLines k) with
  | .ok satInfo => some satInfo
  | .error _ => none

/-- The error-log line the space-data-center loop appends for block `k`, if the parser
rejects it. -/
def noradParseError (o : Oracle) (tleLines : List Text) (k : Nat) : Option LogEntry :=
  match o.getSatelliteInfo (blockTle2 tleLines k) with
  | .ok _ => none
  | .error e => some (.noradParse (2 * k + 1) (noradSatName k) e)

/-- The propagation result has both a position and a velocity. -/
def hasPositionAndVelocity (pv : PositionAndVelocity) : Bool :=
  pv.position.isSome && pv.velocity.isSome

/-- The snapshot entry for the 3-line block number `k`, given what the library calls made for
that block returned: the propagation result `pv k`, the geodetic position `gd k` and the
degrees `lat k` and `lon k`. -/
def returnedEntry (tleLines : List Text) (pv : Nat → PositionAndVelocity) (gd : Nat → Geodetic)
    (lat lon : Nat → Int) (k : Nat) : Option OrbitInfo :=
  if hasPositionAndVelocity (pv k) then
    some { name := trim (tleLines.getD (3 * k) []), latitude := lat k, longitude := lon k,
           altitude := (gd k).height }
  else none

/-- The diagnostic for the 3-line block number `k`, given the propagation result `pv k`. -/
def returnedWarning (tleLines : List Text) (pv : Nat → PositionAndVelocity) (k : Nat) :
    Option ConsoleLine :=
  if hasPositionAndVelocity (pv k) then none
  else some (.warn "Propagation failed for satellite:" (trim (tleLines.getD (3 * k) [])))

/-- The parser accepts the two-line text: `tlejs.getSatelliteInfo` returns. -/
def accepts (o : Oracle) (tle : Text) : Bool :=
  match o.getSatelliteInfo tle with
  | .ok _ => true
  | .error _ => false

/-! ## Example inputs -/

/-- A parser that accepts a two-line text exactly when it starts with the digit `1`. -/
def exampleParser (tle : Text) : Except JsError SatInfo :=
  if tle.head? = some '1' then .ok { payload := tle.length }
  else .error (.library "Invalid TLE")

/-- An outside world in which every request succeeds: CelesTrak returns one malformed and
one well-formed block, Space-Track three well-formed objects. -/
def exampleOracle : Oracle where
  celestrak := .ok "BAD\nx\ny\nISS\n1 a\n2 b\n".toList
  satnogs := .ok [some { tle0 := "ISS".toList, tle1 := "1 a".toList, tle2 := "2 b".toList }]
  spaceTrackLogin := fun _ => .ok { status := 200, setCookie := some ["sid=abc; path=/".toList] }
  spaceTrackQuery := fun _ =>
    .ok { status := 200, data := "1 a\n2 b\n1 c\n2 d\n1 e\n2 f\n".toList }
  getSatelliteInfo := exampleParser
  fsFails := fun _ => false
  date := 10000000

/-- A process environment with both credentials set. -/
def exampleEnv : ProcessEnv where
  SPACETRACK_USERNAME := some "user".toList
  SPACETRACK_PASSWORD := some "secret".toList

/-- A propagation collaborator all of whose calls return: the object with element line `1 a`
propagates and every other object has no position. -/
def exampleCalcOracle : CalcOracle where
  readFileSync := fun _ => .ok "ISS\n1 a\n2 b\nDECAYED\n1 c\n2 d\n".toList
  fsFails := fun _ => false
  date := fun _ => 10000000
  twoline2satrec := fun line1 _ => .ok (if line1 = "1 a".toList then 1 else 0)
  propagate := fun satrec _ =>
    if satrec = 1 then .ok (some { position := some ⟨1, 2, 3⟩, velocity := some ⟨4, 5, 6⟩ })
    else .ok (some { position := none, velocity := none })
  gstime := fun _ => .ok 0
  eciToGeodetic := fun p _ => .ok { latitude := p.x, longitude := p.y, height := p.z }
  degreesLat := fun r => .ok (r * 10)
  degreesLong := fun r => .ok (r * 100)

/-! # Results -/

/-! ## The normalization of the first element line -/

theorem isUpperAZ_ne_space {d : Char} (h : isUpperAZ d = true) : d ≠ ' ' := by
  rintro rfl
  revert h
  decide

theorem replace_of_not_match (a : Char) (t : Text) (h : matchesAtStart (a :: t) = false) :
    replaceDoubleSpaceBeforeUpper (a :: t) = a :: replaceDoubleSpaceBeforeUpper t := by
  match t with
  | [] => simp [replaceDoubleSpaceBeforeUpper]
  | [b] => simp [replaceDoubleSpaceBeforeUpper]
  | b :: d :: rest => simp [replaceDoubleSpaceBeforeUpper, h]

theorem replace_of_match (a b d : Char) (rest : Text)
    (h : matchesAtStart (a :: b :: d :: rest) = true) :
    replaceDoubleSpaceBeforeUpper (a :: b :: d :: rest) =
      d :: replaceDoubleSpaceBeforeUpper rest := by
  have hd : isUpperAZ d = true := by simp [matchesAtStart] at h; exact h.2
  have hne : d ≠ ' ' := isUpperAZ_ne_space hd
  have h2 : matchesAtStart (d :: rest) = false := by
    match rest with
    | [] => rfl
    | [_] => rfl
    | _ :: _ :: _ => simp [matchesAtStart, hne]
  rw [replaceDoubleSpaceBeforeUpper, if_pos h, replace_of_not_match d rest h2]

theorem headIsUpper_replace (t : Text) :
    headIsUpper (replaceDoubleSpaceBeforeUpper t) = (headIsUpper t || matchesAtStart t) := by
  match t with
  | [] => rfl
  | [a] => simp [replaceDoubleSpaceBeforeUpper, headIsUpper, matchesAtStart]
  | [a, b] => simp [replaceDoubleSpaceBeforeUpper, headIsUpper, matchesAtStart]
  | a :: b :: d :: rest =>
    by_cases h : matchesAtStart (a :: b :: d :: rest) = true
    · rw [replace_of_match a b d rest h, h]
      have hd : isUpperAZ d = true := by simp [matchesAtStart] at h; exact h.2
      simp [headIsUpper, hd]
    · simp only [Bool.not_eq_true] at h
      rw [replace_of_not_match a _ h, h]
      simp [headIsUpper]

theorem matchesAtStart_cons_cons (a b : Char) (u : Text) :
    matchesAtStart (a :: b :: u) = (decide (a = ' ') && decide (b = ' ') && headIsUpper u) := by
  cases u <;> simp [matchesAtStart, headIsUpper]

theorem matchesAtStart_of_ne_space (d : Char) (u : Text) (h : d ≠ ' ') :
    matchesAtStart (d :: u) = false := by
  match u with
  | [] => rfl
  | [_] => rfl
  | _ :: _ :: _ => simp [matchesAtStart, h]

theorem quadAtStart_of_ne_space (d : Char) (u : Text) (h : d ≠ ' ') :
    quadAtStart (d :: u) = false := by
  cases u <;> simp [quadAtStart, h]

theorem matchesAtStart_cons_replace (a : Char) (t : Text)
    (h : matchesAtStart (a :: t) = false) :
    matchesAtStart (a :: replaceDoubleSpaceBeforeUpper t) = quadAtStart (a :: t) := by
  match t with
  | [] => rfl
  | [b] => simp [replaceDoubleSpaceBeforeUpper, matchesAtStart, quadAtStart]
  | b :: c :: u =>
    by_cases hm : matchesAtStart (b :: c :: u) = true
    · match u with
      | [] => simp [matchesAtStart] at hm
      | d :: rest =>
        have hd : isUpperAZ d = true := by simp [matchesAtStart] at hm; exact hm.2
        have hne : d ≠ ' ' := isUpperAZ_ne_space hd
        rw [replace_of_match b c d rest hm, matchesAtStart_cons_cons]
        simp [quadAtStart, matchesAtStart_of_ne_space, hne]
        intro _ _
        cases rest <;> simp [matchesAtStart, hne]
    · simp only [Bool.not_eq_true] at hm
      rw [replace_of_not_match b _ hm, matchesAtStart_cons_cons, headIsUpper_replace]
      rw [matchesAtStart_cons_cons] at h
      simp only [quadAtStart]
      cases hx : headIsUpper (c :: u) <;> simp_all

theorem hasDouble_replace (s : Text) :
    hasDoubleSpaceBeforeUpper (replaceDoubleSpaceBeforeUpper s) = hasQuadSpaceBeforeUpper s := by
  suffices key : ∀ n (s : Text), s.length = n →
      hasDoubleSpaceBeforeUpper (replaceDoubleSpaceBeforeUpper s) = hasQuadSpaceBeforeUpper s
    from key s.length s rfl
  intro n
  induction n using Nat.strong_induction_on with
  | _ n ih =>
    intro s hn
    match s with
    | [] => rfl
    | a :: t =>
      by_cases hm : matchesAtStart (a :: t) = true
      · match t with
        | [] => simp [matchesAtStart] at hm
        | [_] => simp [matchesAtStart] at hm
        | b :: d :: rest =>
          have hd : isUpperAZ d = true := by simp [matchesAtStart] at hm; exact hm.2
          have hne : d ≠ ' ' := isUpperAZ_ne_space hd
          have hrec := ih rest.length (by subst hn; simp; omega) rest rfl
          rw [replace_of_match a b d rest hm]
          simp only [hasDoubleSpaceBeforeUpper, hasQuadSpaceBeforeUpper, hrec]
          rw [matchesAtStart_of_ne_space d _ hne, quadAtStart_of_ne_space d _ hne]
          simp [quadAtStart, matchesAtStart_of_ne_space d _ hne, hne]
      · simp only [Bool.not_eq_true] at hm
        have hrec := ih t.length (by subst hn; simp) t rfl
        rw [replace_of_not_match a t hm]
        simp only [hasDoubleSpaceBeforeUpper, hasQuadSpaceBeforeUpper, hrec,
          matchesAtStart_cons_replace a t hm]

theorem replace_eq_self_of_no_match (s : Text) (h : hasDoubleSpaceBeforeUpper s = false) :
    replaceDoubleSpaceBeforeUpper s = s := by
  induction s with
  | nil => rfl
  | cons a t ih =>
    simp only [hasDoubleSpaceBeforeUpper, Bool.or_eq_false_iff] at h
    rw [replace_of_not_match a t h.1, ih h.2]

theorem length_replace_le (s : Text) : (replaceDoubleSpaceBeforeUpper s).length ≤ s.length := by
  suffices key : ∀ n (s : Text), s.length = n →
      (replaceDoubleSpaceBeforeUpper s).length ≤ s.length from key s.length s rfl
  intro n
  induction n using Nat.strong_induction_on with
  | _ n ih =>
    intro s hn
    match s with
    | [] => simp [replaceDoubleSpaceBeforeUpper]
    | a :: t =>
      by_cases hm : matchesAtStart (a :: t) = true
      · match t with
        | [] => simp [matchesAtStart] at hm
        | [_] => simp [matchesAtStart] at hm
        | b :: d :: rest =>
          have hrec := ih rest.length (by subst hn; simp; omega) rest rfl
          rw [replace_of_match a b d rest hm]
          simp only [List.length_cons]
          omega
      · simp only [Bool.not_eq_true] at hm
        have hrec := ih t.length (by subst hn; simp) t rfl
        rw [replace_of_not_match a t hm]
        simp only [List.length_cons]
        omega

theorem length_replace_lt_of_match (s : Text) (h : hasDoubleSpaceBeforeUpper s = true) :
    (replaceDoubleSpaceBeforeUpper s).length < s.length := by
  induction s with
  | nil => simp [hasDoubleSpaceBeforeUpper] at h
  | cons a t ih =>
    by_cases hm : matchesAtStart (a :: t) = true
    · match t with
      | [] => simp [matchesAtStart] at hm
      | [_] => simp [matchesAtStart] at hm
      | b :: d :: rest =>
        rw [replace_of_match a b d rest hm]
        have := length_replace_le rest
        simp only [List.length_cons]
        omega
    · simp only [Bool.not_eq_true] at hm
      simp only [hasDoubleSpaceBeforeUpper, hm, Bool.false_or] at h
      rw [replace_of_not_match a t hm]
      have := ih h
      simp only [List.length_cons]
      omega

theorem getLast?_replace (s : Text) :
    (replaceDoubleSpaceBeforeUpper s).getLast? = s.getLast? := by
  suffices key : ∀ n (s : Text), s.length = n →
      (replaceDoubleSpaceBeforeUpper s).getLast? = s.getLast? from key s.length s rfl
  intro n
  induction n using Nat.strong_induction_on with
  | _ n ih =>
    intro s hn
    match s with
    | [] => rfl
    | a :: t =>
      by_cases hm : matchesAtStart (a :: t) = true
      · match t with
        | [] => simp [matchesAtStart] at hm
        | [_] => simp [matchesAtStart] at hm
        | b :: d :: rest =>
          have hrec := ih rest.length (by subst hn; simp; omega) rest rfl
          rw [replace_of_match a b d rest hm, List.getLast?_cons_cons, List.getLast?_cons_cons,
            List.getLast?_cons, List.getLast?_cons, hrec]
      · simp only [Bool.not_eq_true] at hm
        have hrec := ih t.length (by subst hn; simp) t rfl
        rw [replace_of_not_match a t hm, List.getLast?_cons, List.getLast?_cons, hrec]

theorem trim_eq_self (x : Text) (hh : ∀ c, x.head? = some c → isTrimChar c = false)
    (hl : ∀ c, x.getLast? = some c → isTrimChar c = false) : trim x = x := by
  have h1 : x.dropWhile isTrimChar = x := by
    cases x with
    | nil => rfl
    | cons c rest => simp [List.dropWhile_cons, hh c rfl]
  unfold trim
  rw [h1]
  change List.rdropWhile isTrimChar x = x
  rw [List.rdropWhile_eq_self_iff]
  intro hne
  have := hl (x.getLast hne) (List.getLast?_eq_getLast _ hne)
  simp [this]

theorem trim_head (raw : Text) (c : Char) (h : (trim raw).head? = some c) :
    isTrimChar c = false := by
  have hpre : trim raw <+: raw.dropWhile isTrimChar := List.rdropWhile_prefix isTrimChar _
  obtain ⟨t, ht⟩ := hpre
  cases hv : trim raw with
  | nil => simp [hv] at h
  | cons d r =>
    rw [hv] at h ht
    simp only [List.head?_cons, Option.some.injEq] at h
    subst h
    have hne : raw.dropWhile isTrimChar ≠ [] := by
      rw [← ht]
      simp
    have := List.head_dropWhile_not isTrimChar raw hne
    simpa [← ht] using this

theorem trim_last (raw : Text) (c : Char) (h : (trim raw).getLast? = some c) :
    isTrimChar c = false := by
  have hne : List.rdropWhile isTrimChar (raw.dropWhile isTrimChar) ≠ [] := by
    intro hnil
    have : trim raw = [] := hnil
    simp [this] at h
  have := List.rdropWhile_last_not isTrimChar (raw.dropWhile isTrimChar) hne
  have h2 : (trim raw).getLast? = some ((List.rdropWhile isTrimChar
      (raw.dropWhile isTrimChar)).getLast hne) := List.getLast?_eq_getLast _ hne
  rw [h] at h2
  simp only [Option.some.injEq] at h2
  rw [h2]
  simpa using this

theorem trim_normalizeLine1 (raw : Text) : trim (normalizeLine1 raw) = normalizeLine1 raw := by
  unfold normalizeLine1
  apply trim_eq_self
  · intro c hc
    cases hv : trim raw with
    | nil => simp [hv, replaceDoubleSpaceBeforeUpper] at hc
    | cons d r =>
      have hd : isTrimChar d = false := trim_head raw d (by rw [hv]; rfl)
      have hne : d ≠ ' ' := by
        rintro rfl
        revert hd
        decide
      rw [hv, replace_of_not_match d r (matchesAtStart_of_ne_space d r hne)] at hc
      simp only [List.head?_cons, Option.some.injEq] at hc
      rw [← hc]
      exact hd
  · intro c hc
    rw [getLast?_replace] at hc
    exact trim_last raw c hc

/-! ## Running computations -/

theorem bind_run {α β : Type} (x : JS α) (f : α → JS β) (w : World) :
    (x >>= f) w = JS.bind x f w := rfl

theorem pure_run {α : Type} (a : α) (w : World) : (Pure.pure a : JS α) w = (.ok a, w) := rfl

theorem keeps_pure {α β : Type} (f : World → β) (a : α) : Keeps f (Pure.pure a : JS α) :=
  fun _ => rfl

theorem keeps_throw {α β : Type} (f : World → β) (e : JsError) : Keeps f (JS.throw e : JS α) :=
  fun _ => rfl

theorem keeps_ofExcept {α β : Type} (f : World → β) (r : Except JsError α) :
    Keeps f (JS.ofExcept r) :=
  fun _ => rfl

theorem keeps_read {β : Type} (f : World → β) : Keeps f JS.read :=
  fun _ => rfl

theorem keeps_bind {α β γ : Type} (f : World → β) (x : JS α) (g : α → JS γ)
    (hx : Keeps f x) (hg : ∀ a, Keeps f (g a)) : Keeps f (x >>= g) := by
  intro w
  rw [bind_run]
  unfold JS.bind
  have h1 := hx w
  rcases hxw : x w with ⟨r, w1⟩
  rw [hxw] at h1
  cases r with
  | ok a => simpa [h1] using hg a w1
  | error e => simpa using h1

theorem keeps_tryCatch {α β : Type} (f : World → β) (x : JS α) (g : JsError → JS α)
    (hx : Keeps f x) (hg : ∀ e, Keeps f (g e)) : Keeps f (JS.tryCatch x g) := by
  intro w
  unfold JS.tryCatch
  have h1 := hx w
  rcases hxw : x w with ⟨r, w1⟩
  rw [hxw] at h1
  cases r with
  | ok a => simpa using h1
  | error e => simpa [h1] using hg e w1

theorem keeps_forEachIndex {σ β : Type} (f : World → β) (body : Nat → σ → JS σ)
    (hb : ∀ i s, Keeps f (body i s)) (l : List Nat) (s : σ) :
    Keeps f (forEachIndex body l s) := by
  induction l generalizing s with
  | nil => exact fun _ => rfl
  | cons i rest ih => exact keeps_bind f _ _ (hb i s) ih

theorem keeps_newDateNow {β : Type} (f : World → β) : Keeps f newDateNow := fun _ => rfl

theorem keeps_epochSeconds {β : Type} (f : World → β) : Keeps f epochSeconds :=
  keeps_bind f _ _ (keeps_newDateNow f) fun _ => keeps_pure f _

theorem keeps_trimElement {β : Type} (f : World → β) (x : Option Text) :
    Keeps f (trimElement x) := by
  cases x <;> exact fun _ => rfl

theorem keeps_updatedWithin {β : Type} (f : World → β) (entry : Option Nat) (limit : Nat) :
    Keeps f (updatedWithin entry limit) := by
  unfold updatedWithin
  split
  · exact keeps_bind f _ _ (keeps_epochSeconds f) fun _ => keeps_pure f _
  · exact keeps_pure f _

theorem keeps_collectTleData {β : Type} (f : World → β) (l : List (Option SatnogsSat))
    (t : Text) : Keeps f (collectTleData l t) := by
  induction l generalizing t with
  | nil => exact fun _ => rfl
  | cons x rest ih =>
    cases x with
    | none => exact fun _ => rfl
    | some sat => exact ih _


/-! ### What the adapters can change

Each adapter touches only `console`, `files`, `errLog` and `requests`: an observation of the
world that does not depend on these four fields is the same before and after a call. -/

theorem keeps_consoleLog {β : Type} (f : World → β)
    (hc : ∀ w c, f { w with console := c } = f w) (m : String) : Keeps f (consoleLog m) :=
  fun w => hc w _

theorem keeps_consoleError {β : Type} (f : World → β)
    (hc : ∀ w c, f { w with console := c } = f w) (m : String) (e : Option JsError) :
    Keeps f (consoleError m e) :=
  fun w => hc w _

theorem keeps_writeFileSync {β : Type} (f : World → β)
    (hf : ∀ w fs, f { w with files := fs } = f w) (ff : String → Bool) (file : String)
    (c : FileContent) : Keeps f (writeFileSync ff file c) := by
  intro w
  unfold writeFileSync
  split
  · rfl
  · exact hf w _

theorem keeps_appendErrLog {β : Type} (f : World → β)
    (he : ∀ w l, f { w with errLog := l } = f w) (ff : String → Bool) (entry : LogEntry) :
    Keeps f (appendErrLog ff entry) := by
  intro w
  unfold appendErrLog
  split
  · rfl
  · exact he w _

theorem keeps_axios {α β : Type} (f : World → β)
    (hr : ∀ w r, f { w with requests := r } = f w) (r : Request) (out : Except JsError α) :
    Keeps f (axios r out) :=
  fun w => hr w _

theorem keeps_bind_epochSeconds {α β : Type} (f : World → β) (g : Nat → JS α) :
    Keeps f (epochSeconds >>= g) :=
  fun _ => rfl

theorem keeps_celestrakBlock {β : Type} (f : World → β)
    (he : ∀ w l, f { w with errLog := l } = f w) (o : Oracle) (tleLines : List Text) (i : Nat)
    (satellites : List SatInfo) : Keeps f (celestrakBlock o tleLines i satellites) := by
  unfold celestrakBlock
  repeat' first
    | exact keeps_pure _ _ | exact keeps_ofExcept _ _ | exact keeps_trimElement _ _
    | exact keeps_appendErrLog _ he _ _
    | refine keeps_tryCatch _ _ _ ?_ (fun _ => ?_) | refine keeps_bind _ _ _ ?_ (fun _ => ?_)

theorem keeps_noradBlock {β : Type} (f : World → β)
    (he : ∀ w l, f { w with errLog := l } = f w) (o : Oracle) (tleLines : List Text) (i : Nat)
    (acc : List SatInfo × List Text) : Keeps f (noradBlock o tleLines i acc) := by
  unfold noradBlock
  repeat' first
    | exact keeps_pure _ _ | exact keeps_ofExcept _ _ | exact keeps_trimElement _ _
    | exact keeps_appendErrLog _ he _ _
    | refine keeps_tryCatch _ _ _ ?_ (fun _ => ?_) | refine keeps_bind _ _ _ ?_ (fun _ => ?_)

theorem keeps_fetchAndParseCelesTrackTLEs {β : Type} (f : World → β)
    (hc : ∀ w c, f { w with console := c } = f w) (hf : ∀ w fs, f { w with files := fs } = f w)
    (he : ∀ w l, f { w with errLog := l } = f w)
    (hr : ∀ w r, f { w with requests := r } = f w) (o : Oracle) :
    Keeps f (fetchAndParseCelesTrackTLEs o) := by
  unfold fetchAndParseCelesTrackTLEs
  repeat' first
    | exact keeps_read _ | exact keeps_pure _ _ | exact keeps_throw _ _
    | exact keeps_ofExcept _ _ | exact keeps_updatedWithin _ _ _
    | exact keeps_trimElement _ _ | exact keeps_collectTleData _ _ _
    | exact keeps_consoleLog _ hc _ | exact keeps_consoleError _ hc _ _
    | exact keeps_writeFileSync _ hf _ _ _ | exact keeps_appendErrLog _ he _ _
    | exact keeps_axios _ hr _ _ | exact keeps_bind_epochSeconds _ _
    | exact keeps_forEachIndex _ _ (fun _ _ => keeps_celestrakBlock _ he _ _ _ _) _ _
    | exact keeps_forEachIndex _ _ (fun _ _ => keeps_noradBlock _ he _ _ _ _) _ _
    | refine keeps_tryCatch _ _ _ ?_ (fun _ => ?_) | refine keeps_bind _ _ _ ?_ (fun _ => ?_)
    | split

theorem keeps_fetchAndParseSatNOGSTLEs {β : Type} (f : World → β)
    (hc : ∀ w c, f { w with console := c } = f w) (hf : ∀ w fs, f { w with files := fs } = f w)
    (he : ∀ w l, f { w with errLog := l } = f w)
    (hr : ∀ w r, f { w with requests := r } = f w) (o : Oracle) :
    Keeps f (fetchAndParseSatNOGSTLEs o) := by
  unfold fetchAndParseSatNOGSTLEs
  repeat' first
    | exact keeps_read _ | exact keeps_pure _ _ | exact keeps_throw _ _
    | exact keeps_ofExcept _ _ | exact keeps_updatedWithin _ _ _
    | exact keeps_trimElement _ _ | exact keeps_collectTleData _ _ _
    | exact keeps_consoleLog _ hc _ | exact keeps_consoleError _ hc _ _
    | exact keeps_writeFileSync _ hf _ _ _ | exact keeps_appendErrLog _ he _ _
    | exact keeps_axios _ hr _ _ | exact keeps_bind_epochSeconds _ _
    | exact keeps_forEachIndex _ _ (fun _ _ => keeps_celestrakBlock _ he _ _ _ _) _ _
    | exact keeps_forEachIndex _ _ (fun _ _ => keeps_noradBlock _ he _ _ _ _) _ _
    | refine keeps_tryCatch _ _ _ ?_ (fun _ => ?_) | refine keeps_bind _ _ _ ?_ (fun _ => ?_)
    | split

theorem keeps_fetchNORADTLEs {β : Type} (f : World → β)
    (hc : ∀ w c, f { w with console := c } = f w) (hf : ∀ w fs, f { w with files := fs } = f w)
    (he : ∀ w l, f { w with errLog := l } = f w)
    (hr : ∀ w r, f { w with requests := r } = f w) (penv : ProcessEnv) (o : Oracle) :
    Keeps f (fetchNORADTLEs penv o) := by
  unfold fetchNORADTLEs
  repeat' first
    | exact keeps_read _ | exact keeps_pure _ _ | exact keeps_throw _ _
    | exact keeps_ofExcept _ _ | exact keeps_updatedWithin _ _ _
    | exact keeps_trimElement _ _ | exact keeps_collectTleData _ _ _
    | exact keeps_consoleLog _ hc _ | exact keeps_consoleError _ hc _ _
    | exact keeps_writeFileSync _ hf _ _ _ | exact keeps_appendErrLog _ he _ _
    | exact keeps_axios _ hr _ _ | exact keeps_bind_epochSeconds _ _
    | exact keeps_forEachIndex _ _ (fun _ _ => keeps_celestrakBlock _ he _ _ _ _) _ _
    | exact keeps_forEachIndex _ _ (fun _ _ => keeps_noradBlock _ he _ _ _ _) _ _
    | refine keeps_tryCatch _ _ _ ?_ (fun _ => ?_) | refine keeps_bind _ _ _ ?_ (fun _ => ?_)
    | split

/-! ## Loops -/

theorem loopIndices_mul (n step : Nat) (h : 0 < step) :
    loopIndices (step * n) step = (List.range n).map (fun k => k * step) := by
  unfold loopIndices
  congr 2
  rw [Nat.add_sub_assoc h, Nat.add_comm, Nat.add_mul_div_left _ _ h,
    Nat.div_eq_of_lt (Nat.sub_lt h Nat.one_pos), Nat.zero_add]

theorem mem_loopIndices (n step i : Nat) (h : 0 < step) :
    i ∈ loopIndices n step ↔ i < n ∧ step ∣ i := by
  unfold loopIndices
  simp only [List.mem_map, List.mem_range]
  have key : ∀ k, k < (n + step - 1) / step ↔ k * step < n := by
    intro k
    rw [Nat.lt_iff_add_one_le, Nat.le_div_iff_mul_le h, Nat.add_mul]
    generalize k * step = m
    omega
  constructor
  · rintro ⟨k, hk, rfl⟩
    exact ⟨(key k).mp hk, Dvd.intro_left k rfl⟩
  · rintro ⟨hi, k, rfl⟩
    exact ⟨k, (key k).mpr (by rwa [Nat.mul_comm]), Nat.mul_comm _ _⟩

theorem forEachIndex_append {σ : Type} (body : Nat → σ → JS σ) (l1 l2 : List Nat) (s : σ)
    (w : World) :
    forEachIndex body (l1 ++ l2) s w =
      match forEachIndex body l1 s w with
      | (.ok s1, w1) => forEachIndex body l2 s1 w1
      | (.error e, w1) => (.error e, w1) := by
  induction l1 generalizing s w with
  | nil => simp [forEachIndex, JS.pure]
  | cons i rest ih =>
    simp only [List.cons_append, forEachIndex, JS.bind]
    rcases h : body i s w with ⟨r, w1⟩
    cases r with
    | ok s1 => simp [ih]
    | error e => simp

theorem getElem?_eq_some_getD (l : List Text) (i : Nat) (h : i < l.length) :
    l[i]? = some (l.getD i []) := by
  simp [List.getD_eq_getElem?_getD, List.getElem?_eq_getElem h]

theorem trimElement_run (l : List Text) (i : Nat) (h : i < l.length) (w : World) :
    trimElement l[i]? w = (.ok (trim (l.getD i [])), w) := by
  rw [getElem?_eq_some_getD l i h]
  rfl

theorem trimElement_none_run (l : List Text) (i : Nat) (h : l.length ≤ i) (w : World) :
    trimElement l[i]? w =
      (.error (.typeError "Cannot read properties of undefined (reading 'trim')"), w) := by
  rw [List.getElem?_eq_none h]
  rfl

theorem appendErrLog_run (ff : String → Bool) (h : ff ERR_LOG_FILE = false) (entry : LogEntry)
    (w : World) :
    appendErrLog ff entry w = (.ok (), { w with errLog := w.errLog ++ [entry] }) := by
  simp [appendErrLog, h]

theorem writeFileSync_run (ff : String → Bool) (file : String) (h : ff file = false)
    (content : FileContent) (w : World) :
    writeFileSync ff file content w =
      (.ok (), { w with files := fun f => if f = file then some content else w.files f }) := by
  simp [writeFileSync, h]

theorem ceilHalf_double (k : Nat) : ceilHalf (2 * k) = k := by
  unfold ceilHalf
  omega

theorem noradName_double (k : Nat) : noradName (2 * k) = noradSatName k := by
  unfold noradName noradSatName
  rw [ceilHalf_double]

/-! ### One iteration of each loop, on a complete block -/

theorem celestrakBlock_run (o : Oracle) (hfs : o.fsFails ERR_LOG_FILE = false)
    (tleLines : List Text) (k : Nat) (hk : 3 * k + 2 < tleLines.length)
    (satellites : List SatInfo) (w : World) :
    celestrakBlock o tleLines (3 * k) satellites w =
      (.ok (satellites ++ (celestrakRecord o tleLines k).toList),
        { w with errLog := w.errLog ++ (celestrakParseError o tleLines k).toList }) := by
  unfold celestrakBlock
  simp only [bind_run, JS.bind, trimElement_run tleLines (3 * k) (by omega),
    trimElement_run tleLines (3 * k + 1) (by omega), trimElement_run tleLines (3 * k + 2) hk,
    JS.tryCatch, JS.ofExcept, celestrakRecord, celestrakParseError, blockTle3, blockName3]
  cases o.getSatelliteInfo
      (trim (tleLines.getD (3 * k + 1) []) ++ ['\n'] ++ trim (tleLines.getD (3 * k + 2) [])) with
  | ok satInfo => simp [pure_run]
  | error e => simp [pure_run, appendErrLog_run _ hfs]

theorem noradBlock_run (o : Oracle) (hfs : o.fsFails ERR_LOG_FILE = false)
    (tleLines : List Text) (k : Nat) (hk : 2 * k + 1 < tleLines.length)
    (acc : List SatInfo × List Text) (w : World) :
    noradBlock o tleLines (2 * k) acc w =
      (.ok (acc.1 ++ (noradRecord o tleLines k).toList, acc.2 ++ [noradSavedBlock tleLines k]),
        { w with errLog := w.errLog ++ (noradParseError o tleLines k).toList }) := by
  unfold noradBlock
  simp only [bind_run, JS.bind, trimElement_run tleLines (2 * k) (by omega),
    trimElement_run tleLines (2 * k + 1) hk, noradName_double,
    JS.tryCatch, JS.ofExcept, noradRecord, noradParseError, blockTle2, noradSavedBlock,
    normalizeLine1]
  cases o.getSatelliteInfo
      (replaceDoubleSpaceBeforeUpper (trim (tleLines.getD (2 * k) [])) ++ ['\n'] ++
        trim (tleLines.getD (2 * k + 1) [])) with
  | ok satInfo => simp [pure_run]
  | error e => simp [pure_run, appendErrLog_run _ hfs]

theorem estimBlock_run (c : CalcOracle) (tleLines : List Text) (satrec : Nat → Nat)
    (pv : Nat → PositionAndVelocity) (gmst : Nat → Int) (gd : Nat → Geodetic)
    (lat lon : Nat → Int) (k : Nat) (hk : 3 * k + 2 < tleLines.length)
    (hsatrec : c.twoline2satrec (trim (tleLines.getD (3 * k + 1) []))
      (trim (tleLines.getD (3 * k + 2) [])) = .ok (satrec k))
    (hprop : c.propagate (satrec k) (c.date (3 * k)) = .ok (some (pv k)))
    (hgeo : ∀ position, (pv k).position = some position → (pv k).velocity.isSome = true →
      c.gstime (c.date (3 * k)) = .ok (gmst k) ∧
      c.eciToGeodetic position (gmst k) = .ok (gd k) ∧
      c.degreesLat (gd k).latitude = .ok (lat k) ∧
      c.degreesLong (gd k).longitude = .ok (lon k))
    (satellites : List OrbitInfo) (w : World) :
    estimBlock c tleLines (3 * k) satellites w =
      (.ok (satellites ++ (returnedEntry tleLines pv gd lat lon k).toList),
        { w with console := w.console ++ (returnedWarning tleLines pv k).toList }) := by
  unfold estimBlock
  simp only [bind_run, JS.bind, trimElement_run tleLines (3 * k) (by omega),
    trimElement_run tleLines (3 * k + 1) (by omega), trimElement_run tleLines (3 * k + 2) hk,
    JS.ofExcept, hsatrec, hprop, returnedEntry, returnedWarning, hasPositionAndVelocity]
  rcases hpv : pv k with ⟨p, v⟩
  rw [hpv] at hgeo
  cases p with
  | none => cases v <;> simp [pure_run, consoleWarn, JS.modify, bind_run, JS.bind]
  | some position =>
    cases v with
    | none => simp [pure_run, consoleWarn, JS.modify, bind_run, JS.bind]
    | some velocity =>
      obtain ⟨h1, h2, h3, h4⟩ := hgeo position rfl rfl
      simp [pure_run, bind_run, JS.bind, JS.ofExcept, h1, h2, h3, h4]

theorem filterMap_range_succ {α : Type} (f : Nat → Option α) (m : Nat) :
    (List.range (m + 1)).filterMap f = (List.range m).filterMap f ++ (f m).toList := by
  rw [List.range_succ, List.filterMap_append]
  cases h : f m <;> simp [List.filterMap_cons, h]

theorem forEachIndex_singleton {σ : Type} (body : Nat → σ → JS σ) (i : Nat) (s : σ) (w : World) :
    forEachIndex body [i] s w = body i s w := by
  simp only [forEachIndex, JS.bind]
  rcases body i s w with ⟨r, w1⟩
  cases r <;> rfl

/-! ### The loops on a text of complete blocks -/

theorem celestrakLoop_run (o : Oracle) (hfs : o.fsFails ERR_LOG_FILE = false)
    (tleLines : List Text) (m : Nat) (hm : 3 * m ≤ tleLines.length)
    (satellites : List SatInfo) (w : World) :
    forEachIndex (celestrakBlock o tleLines) ((List.range m).map fun k => k * 3) satellites w =
      (.ok (satellites ++ (List.range m).filterMap (celestrakRecord o tleLines)),
        { w with
          errLog := w.errLog ++ (List.range m).filterMap (celestrakParseError o tleLines) }) := by
  induction m with
  | zero => simp [forEachIndex, JS.pure]
  | succ m ih =>
    rw [List.range_succ, List.map_append, forEachIndex_append, ih (by omega)]
    simp only [List.map_cons, List.map_nil, forEachIndex_singleton]
    rw [Nat.mul_comm m 3, celestrakBlock_run o hfs tleLines m (by omega), ← List.range_succ,
      filterMap_range_succ, filterMap_range_succ]
    simp [List.append_assoc]

theorem noradLoop_run (o : Oracle) (hfs : o.fsFails ERR_LOG_FILE = false)
    (tleLines : List Text) (m : Nat) (hm : 2 * m ≤ tleLines.length)
    (acc : List SatInfo × List Text) (w : World) :
    forEachIndex (noradBlock o tleLines) ((List.range m).map fun k => k * 2) acc w =
      (.ok (acc.1 ++ (List.range m).filterMap (noradRecord o tleLines),
          acc.2 ++ (List.range m).map (noradSavedBlock tleLines)),
        { w with
          errLog := w.errLog ++ (List.range m).filterMap (noradParseError o tleLines) }) := by
  induction m with
  | zero => simp [forEachIndex, JS.pure]
  | succ m ih =>
    rw [List.range_succ, List.map_append, forEachIndex_append, ih (by omega)]
    simp only [List.map_cons, List.map_nil, forEachIndex_singleton]
    rw [Nat.mul_comm m 2, noradBlock_run o hfs tleLines m (by omega), ← List.range_succ,
      filterMap_range_succ, filterMap_range_succ]
    simp [List.append_assoc, List.range_succ]

theorem estimLoop_run (c : CalcOracle) (tleLines : List Text) (satrec : Nat → Nat)
    (pv : Nat → PositionAndVelocity) (gmst : Nat → Int) (gd : Nat → Geodetic)
    (lat lon : Nat → Int) (m : Nat) (hm : 3 * m ≤ tleLines.length)
    (hsatrec : ∀ k, k < m → c.twoline2satrec (trim (tleLines.getD (3 * k + 1) []))
      (trim (tleLines.getD (3 * k + 2) [])) = .ok (satrec k))
    (hprop : ∀ k, k < m → c.propagate (satrec k) (c.date (3 * k)) = .ok (some (pv k)))
    (hgeo : ∀ k, k < m → ∀ position, (pv k).position = some position →
      (pv k).velocity.isSome = true →
      c.gstime (c.date (3 * k)) = .ok (gmst k) ∧
      c.eciToGeodetic position (gmst k) = .ok (gd k) ∧
      c.degreesLat (gd k).latitude = .ok (lat k) ∧
      c.degreesLong (gd k).longitude = .ok (lon k))
    (satellites : List OrbitInfo) (w : World) :
    forEachIndex (estimBlock c tleLines) ((List.range m).map fun k => k * 3) satellites w =
      (.ok (satellites ++ (List.range m).filterMap (returnedEntry tleLines pv gd lat lon)),
        { w with
          console := w.console ++
            (List.range m).filterMap (returnedWarning tleLines pv) }) := by
  induction m with
  | zero => simp [forEachIndex, JS.pure]
  | succ m ih =>
    rw [List.range_succ, List.map_append, forEachIndex_append,
      ih (by omega) (fun k hk => hsatrec k (by omega)) (fun k hk => hprop k (by omega))
        (fun k hk => hgeo k (by omega))]
    simp only [List.map_cons, List.map_nil, forEachIndex_singleton]
    rw [Nat.mul_comm m 3,
      estimBlock_run c tleLines satrec pv gmst gd lat lon m (by omega) (hsatrec m (by omega))
        (hprop m (by omega)) (hgeo m (by omega)),
      ← List.range_succ, filterMap_range_succ, filterMap_range_succ]
    simp [List.append_assoc]

/-! ### The adapters on a text of complete blocks -/

theorem updatedWithin_run_falsy (entry : Option Nat) (limit : Nat)
    (h : truthyNumber entry = false) (w : World) :
    updatedWithin entry limit w = (.ok false, w) := by
  simp [updatedWithin, h, pure_run]

theorem updatedWithin_run_truthy (entry : Option Nat) (limit : Nat)
    (h : truthyNumber entry = true) (w : World) :
    updatedWithin entry limit w =
      (.error (.typeError "(intermediate value).now is not a function"), w) := by
  simp [updatedWithin, h]
  rfl

theorem epochSeconds_run (w : World) :
    epochSeconds w = (.error (.typeError "(intermediate value).now is not a function"), w) :=
  rfl

theorem fetchAndParseCelesTrackTLEs_run (o : Oracle) (w : World) (data : Text) (n : Nat)
    (hguard : truthyNumber w.db_updates.celestrak = false)
    (hresp : o.celestrak = .ok data) (hfs : ∀ f, o.fsFails f = false)
    (hlen : (split '\n' (trim data)).length = 3 * n) :
    fetchAndParseCelesTrackTLEs o w =
      (.ok (),
        { w with
          requests := w.requests ++ [.celestrak]
          files := fun f =>
            if f = "celestrak_tles.json" then
              some (.satellitesJson
                ((List.range n).filterMap (celestrakRecord o (split '\n' (trim data)))))
            else if f = "celestrak_tles.txt" then some (.text data)
            else w.files f
          errLog := w.errLog ++
            (List.range n).filterMap (celestrakParseError o (split '\n' (trim data))) ++
            [.celestrakFetch (.typeError "(intermediate value).now is not a function")]
          console := w.console ++
            [.log "Celestrak TLEs saved to celestrak_tles.txt",
             .log "Parsed Celestrak TLEs saved to celestrak_tles.json",
             .error "Error fetching or parsing Celestrak TLEs:"
               (some (.typeError "(intermediate value).now is not a function"))] }) := by
  unfold fetchAndParseCelesTrackTLEs
  simp only [JS.tryCatch, bind_run, JS.bind, JS.read, updatedWithin_run_falsy _ _ hguard,
    Bool.false_eq_true, if_false,
    axios, hresp, writeFileSync_run _ _ (hfs _), consoleLog, JS.modify, hlen,
    loopIndices_mul n 3 (by decide), celestrakLoop_run o (hfs _) _ n (le_of_eq hlen.symm),
    epochSeconds_run, consoleError, appendErrLog_run _ (hfs _)]
  simp

theorem fetchNORADTLEs_run (penv : ProcessEnv) (o : Oracle) (w : World)
    (auth : AuthResponse) (cookies : List Text) (response : QueryResponse) (n : Nat)
    (hguard : truthyNumber w.db_updates.norad = false)
    (huser : truthyText penv.SPACETRACK_USERNAME = true)
    (hpass : truthyText penv.SPACETRACK_PASSWORD = true)
    (hlogin : o.spaceTrackLogin (loginForm penv) = .ok auth) (hstatus : auth.status = 200)
    (hcookies : auth.setCookie = some cookies)
    (hquery : o.spaceTrackQuery (cookieHeader cookies) = .ok response)
    (hstatus2 : response.status = 200) (hfs : ∀ f, o.fsFails f = false)
    (hlen : (split '\n' (trim response.data)).length = 2 * n) :
    fetchNORADTLEs penv o w =
      (.ok (),
        { w with
          requests := w.requests ++
            [.spaceTrackLogin (loginForm penv), .spaceTrackQuery (cookieHeader cookies)]
          files := fun f =>
            if f = "norad_tles.json" then
              some (.satellitesJson
                ((List.range n).filterMap (noradRecord o (split '\n' (trim response.data)))))
            else if f = "norad_tles.txt" then
              some (.text (join ['\n']
                ((List.range n).map (noradSavedBlock (split '\n' (trim response.data))))))
            else if f = "norad_tles_raw.txt" then some (.text response.data)
            else w.files f
          errLog := w.errLog ++
            (List.range n).filterMap (noradParseError o (split '\n' (trim response.data))) ++
            [.noradFetch (.typeError "(intermediate value).now is not a function")]
          console := w.console ++
            [.log "Authenticated with Space-Track.org...",
             .log "NORAD TLEs saved to norad_tles.txt",
             .log "Parsed NORAD TLEs saved to norad_tles.json",
             .error "Error fetching NORAD TLEs:"
               (some (.typeError "(intermediate value).now is not a function"))] }) := by
  unfold fetchNORADTLEs
  simp only [JS.tryCatch, bind_run, JS.bind, JS.read, updatedWithin_run_falsy _ _ hguard,
    Bool.false_eq_true, if_false, huser, hpass, Bool.not_true, Bool.or_self,
    axios, hlogin, hstatus, hcookies, hquery, hstatus2, ne_eq, not_true_eq_false,
    writeFileSync_run _ _ (hfs _), consoleLog, JS.modify, hlen,
    loopIndices_mul n 2 (by decide), noradLoop_run o (hfs _) _ n (le_of_eq hlen.symm),
    epochSeconds_run, consoleError, appendErrLog_run _ (hfs _)]
  simp

theorem estimOrbitByTLEs_run (c : CalcOracle) (tleFile outputOrbitsFile : String) (w : World)
    (data : Text) (n : Nat) (satrec : Nat → Nat) (pv : Nat → PositionAndVelocity)
    (gmst : Nat → Int) (gd : Nat → Geodetic) (lat lon : Nat → Int)
    (hread : c.readFileSync tleFile = .ok data)
    (hfs : c.fsFails outputOrbitsFile = false)
    (hlen : (split '\n' (trim data)).length = 3 * n)
    (hsatrec : ∀ k, k < n →
      c.twoline2satrec (trim ((split '\n' (trim data)).getD (3 * k + 1) []))
        (trim ((split '\n' (trim data)).getD (3 * k + 2) [])) = .ok (satrec k))
    (hprop : ∀ k, k < n → c.propagate (satrec k) (c.date (3 * k)) = .ok (some (pv k)))
    (hgeo : ∀ k, k < n → ∀ position, (pv k).position = some position →
      (pv k).velocity.isSome = true →
      c.gstime (c.date (3 * k)) = .ok (gmst k) ∧
      c.eciToGeodetic position (gmst k) = .ok (gd k) ∧
      c.degreesLat (gd k).latitude = .ok (lat k) ∧
      c.degreesLong (gd k).longitude = .ok (lon k)) :
    estimOrbitByTLEs c tleFile outputOrbitsFile w =
      (.ok (),
        { w with
          files := fun f =>
            if f = outputOrbitsFile then
              some (.orbitsJson
                ((List.range n).filterMap
                  (returnedEntry (split '\n' (trim data)) pv gd lat lon)))
            else w.files f
          console := w.console ++
            (List.range n).filterMap (returnedWarning (split '\n' (trim data)) pv) ++
            [.log "Parsed NORAD TLEs saved to norad_tles.json"] }) := by
  unfold estimOrbitByTLEs
  simp only [JS.tryCatch, bind_run, JS.bind, JS.ofExcept, hread,
    writeFileSync_run _ _ hfs, consoleLog, JS.modify, hlen,
    loopIndices_mul n 3 (by decide),
    estimLoop_run c (split '\n' (trim data)) satrec pv gmst gd lat lon n (le_of_eq hlen.symm)
      hsatrec hprop hgeo,
    List.nil_append]

/-! ### The adapters on a text whose last block is incomplete -/

theorem loopIndices_incomplete (n step r : Nat) (h0 : 0 < r) (h1 : r < step) :
    loopIndices (step * n + r) step = (List.range (n + 1)).map (fun k => k * step) := by
  unfold loopIndices
  congr 2
  have hstep : 0 < step := by omega
  have e : step * n + r + step - 1 = (r - 1) + step * (n + 1) := by
    rw [Nat.mul_add, Nat.mul_one]
    omega
  rw [e, Nat.add_mul_div_left _ _ hstep, Nat.div_eq_of_lt (by omega), Nat.zero_add]

theorem celestrakBlock_incomplete (o : Oracle) (tleLines : List Text) (k : Nat)
    (h1 : 3 * k < tleLines.length) (h2 : tleLines.length < 3 * k + 3)
    (satellites : List SatInfo) (w : World) :
    celestrakBlock o tleLines (3 * k) satellites w =
      (.error (.typeError "Cannot read properties of undefined (reading 'trim')"), w) := by
  unfold celestrakBlock
  by_cases h : 3 * k + 1 < tleLines.length
  · simp only [bind_run, JS.bind, trimElement_run tleLines (3 * k) h1,
      trimElement_run tleLines (3 * k + 1) h,
      trimElement_none_run tleLines (3 * k + 2) (by omega)]
  · simp only [bind_run, JS.bind, trimElement_run tleLines (3 * k) h1,
      trimElement_none_run tleLines (3 * k + 1) (by omega)]

theorem noradBlock_incomplete (o : Oracle) (tleLines : List Text) (k : Nat)
    (h1 : 2 * k < tleLines.length) (h2 : tleLines.length < 2 * k + 2)
    (acc : List SatInfo × List Text) (w : World) :
    noradBlock o tleLines (2 * k) acc w =
      (.error (.typeError "Cannot read properties of undefined (reading 'trim')"), w) := by
  unfold noradBlock
  simp only [bind_run, JS.bind, trimElement_run tleLines (2 * k) h1,
    trimElement_none_run tleLines (2 * k + 1) (by omega)]

theorem celestrakLoop_incomplete (o : Oracle) (hfs : o.fsFails ERR_LOG_FILE = false)
    (tleLines : List Text) (n : Nat) (h1 : 3 * n < tleLines.length)
    (h2 : tleLines.length < 3 * n + 3) (w : World) :
    forEachIndex (celestrakBlock o tleLines) ((List.range (n + 1)).map fun k => k * 3) [] w =
      (.error (.typeError "Cannot read properties of undefined (reading 'trim')"),
        { w with
          errLog := w.errLog ++ (List.range n).filterMap (celestrakParseError o tleLines) }) := by
  rw [List.range_succ, List.map_append, forEachIndex_append,
    celestrakLoop_run o hfs tleLines n (by omega)]
  simp only [List.map_cons, List.map_nil, forEachIndex_singleton]
  rw [Nat.mul_comm n 3, celestrakBlock_incomplete o tleLines n h1 h2]

theorem noradLoop_incomplete (o : Oracle) (hfs : o.fsFails ERR_LOG_FILE = false)
    (tleLines : List Text) (n : Nat) (h1 : 2 * n < tleLines.length)
    (h2 : tleLines.length < 2 * n + 2) (w : World) :
    forEachIndex (noradBlock o tleLines) ((List.range (n + 1)).map fun k => k * 2) ([], []) w =
      (.error (.typeError "Cannot read properties of undefined (reading 'trim')"),
        { w with
          errLog := w.errLog ++ (List.range n).filterMap (noradParseError o tleLines) }) := by
  rw [List.range_succ, List.map_append, forEachIndex_append,
    noradLoop_run o hfs tleLines n (by omega)]
  simp only [List.map_cons, List.map_nil, forEachIndex_singleton]
  rw [Nat.mul_comm n 2, noradBlock_incomplete o tleLines n h1 h2]

theorem fetchAndParseCelesTrackTLEs_run_incomplete (o : Oracle) (w : World) (data : Text)
    (n r : Nat) (hguard : truthyNumber w.db_updates.celestrak = false)
    (hresp : o.celestrak = .ok data) (hfs : ∀ f, o.fsFails f = false)
    (hlen : (split '\n' (trim data)).length = 3 * n + r) (h0 : 0 < r) (h3 : r < 3) :
    fetchAndParseCelesTrackTLEs o w =
      (.ok (),
        { w with
          requests := w.requests ++ [.celestrak]
          files := fun f => if f = "celestrak_tles.txt" then some (.text data) else w.files f
          errLog := w.errLog ++
            (List.range n).filterMap (celestrakParseError o (split '\n' (trim data))) ++
            [.celestrakFetch
              (.typeError "Cannot read properties of undefined (reading 'trim')")]
          console := w.console ++
            [.log "Celestrak TLEs saved to celestrak_tles.txt",
             .error "Error fetching or parsing Celestrak TLEs:"
               (some (.typeError "Cannot read properties of undefined (reading 'trim')"))] }) := by
  unfold fetchAndParseCelesTrackTLEs
  simp only [JS.tryCatch, bind_run, JS.bind, JS.read, updatedWithin_run_falsy _ _ hguard,
    Bool.false_eq_true, if_false,
    axios, hresp, writeFileSync_run _ _ (hfs _), consoleLog, JS.modify, hlen,
    loopIndices_incomplete n 3 r h0 h3,
    celestrakLoop_incomplete o (hfs _) (split '\n' (trim data)) n (by omega) (by omega),
    consoleError, appendErrLog_run _ (hfs _)]
  simp

theorem fetchNORADTLEs_run_incomplete (penv : ProcessEnv) (o : Oracle) (w : World)
    (auth : AuthResponse) (cookies : List Text) (response : QueryResponse) (n : Nat)
    (hguard : truthyNumber w.db_updates.norad = false)
    (huser : truthyText penv.SPACETRACK_USERNAME = true)
    (hpass : truthyText penv.SPACETRACK_PASSWORD = true)
    (hlogin : o.spaceTrackLogin (loginForm penv) = .ok auth) (hstatus : auth.status = 200)
    (hcookies : auth.setCookie = some cookies)
    (hquery : o.spaceTrackQuery (cookieHeader cookies) = .ok response)
    (hstatus2 : response.status = 200) (hfs : ∀ f, o.fsFails f = false)
    (hlen : (split '\n' (trim response.data)).length = 2 * n + 1) :
    fetchNORADTLEs penv o w =
      (.ok (),
        { w with
          requests := w.requests ++
            [.spaceTrackLogin (loginForm penv), .spaceTrackQuery (cookieHeader cookies)]
          files := fun f =>
            if f = "norad_tles_raw.txt" then some (.text response.data) else w.files f
          errLog := w.errLog ++
            (List.range n).filterMap (noradParseError o (split '\n' (trim response.data))) ++
            [.noradFetch (.typeError "Cannot read properties of undefined (reading 'trim')")]
          console := w.console ++
            [.log "Authenticated with Space-Track.org...",
             .error "Error fetching NORAD TLEs:"
               (some (.typeError "Cannot read properties of undefined (reading 'trim')"))] }) := by
  unfold fetchNORADTLEs
  simp only [JS.tryCatch, bind_run, JS.bind, JS.read, updatedWithin_run_falsy _ _ hguard,
    Bool.false_eq_true, if_false, huser, hpass, Bool.not_true, Bool.or_self,
    axios, hlogin, hstatus, hcookies, hquery, hstatus2, ne_eq, not_true_eq_false,
    writeFileSync_run _ _ (hfs _), consoleLog, JS.modify, hlen,
    loopIndices_incomplete n 2 1 (by decide) (by decide),
    noradLoop_incomplete o (hfs _) (split '\n' (trim response.data)) n (by omega) (by omega),
    consoleError, appendErrLog_run _ (hfs _)]
  simp

/-! ## The loop of `main` -/

theorem bind_of_ok {α β : Type} (x : JS α) (f : α → JS β) (w : World) (a : α)
    (h : (x w).1 = .ok a) : (x >>= f) w = f a (x w).2 := by
  rw [bind_run]
  unfold JS.bind
  rcases hx : x w with ⟨r, w1⟩
  rw [hx] at h
  cases r with
  | ok b =>
    cases h
    rfl
  | error e => cases h

theorem guarded_ok (x : JS Unit) (m : String) (w : World) :
    (JS.tryCatch x (fun error => consoleError m (some error)) w).1 = .ok () := by
  unfold JS.tryCatch
  rcases x w with ⟨r, w1⟩
  cases r <;> rfl

theorem keeps_guarded {β : Type} (f : World → β) (hc : ∀ w c, f { w with console := c } = f w)
    (x : JS Unit) (hx : Keeps f x) (m : String) :
    Keeps f (JS.tryCatch x (fun error => consoleError m (some error))) :=
  keeps_tryCatch f _ _ hx fun _ => keeps_consoleError f hc _ _

theorem guarded_invoke_calls (a : Adapter) (x : JS Unit) (hx : Keeps World.calls x)
    (m : String) (w : World) :
    ((JS.tryCatch (invoke a x) (fun error => consoleError m (some error))) w).2.calls =
      w.calls ++ [a] := by
  have h1 : ∀ w1, ((invoke a x) w1).2.calls = w1.calls ++ [a] := by
    intro w1
    show (x { w1 with calls := w1.calls ++ [a] }).2.calls = w1.calls ++ [a]
    rw [hx]
  unfold JS.tryCatch
  have h2 := h1 w
  rcases hi : invoke a x w with ⟨r, w1⟩
  rw [hi] at h2
  cases r with
  | ok u => exact h2
  | error e => exact h2

theorem keeps_invoke {β : Type} (f : World → β) (hcalls : ∀ w c, f { w with calls := c } = f w)
    (a : Adapter) (x : JS Unit) (hx : Keeps f x) : Keeps f (invoke a x) := by
  intro w
  show f (x { w with calls := w.calls ++ [a] }).2 = f w
  rw [hx, hcalls]

/-- The world in which the loop body of `main` stops: the one left by the three guarded
adapter calls. -/
theorem mainLoopBody_run (penv : ProcessEnv) (o : Oracle) (w : World) :
    mainLoopBody penv o w =
      (.error (.typeError "(intermediate value).now is not a function"),
        (JS.tryCatch (invoke .fetchAndParseSatNOGSTLEs (fetchAndParseSatNOGSTLEs o))
          (fun error => consoleError "Error:" (some error))
          (JS.tryCatch (invoke .fetchAndParseCelesTrackTLEs (fetchAndParseCelesTrackTLEs o))
            (fun error => consoleError "Error:" (some error))
            (JS.tryCatch (invoke .fetchNORADTLEs (fetchNORADTLEs penv o))
              (fun error => consoleError "Error:" (some error)) w).2).2).2) := by
  unfold mainLoopBody
  rw [bind_of_ok _ _ _ () (guarded_ok _ _ _), bind_of_ok _ _ _ () (guarded_ok _ _ _),
    bind_of_ok _ _ _ () (guarded_ok _ _ _)]
  rfl

theorem mainLoopBody_calls (penv : ProcessEnv) (o : Oracle) (w : World) :
    (mainLoopBody penv o w).2.calls =
      w.calls ++ [.fetchNORADTLEs, .fetchAndParseCelesTrackTLEs, .fetchAndParseSatNOGSTLEs] := by
  rw [mainLoopBody_run]
  simp only []
  rw [guarded_invoke_calls _ _
      (keeps_fetchAndParseSatNOGSTLEs World.calls (fun _ _ => rfl) (fun _ _ => rfl) (fun _ _ => rfl)
        (fun _ _ => rfl) o),
    guarded_invoke_calls _ _
      (keeps_fetchAndParseCelesTrackTLEs World.calls (fun _ _ => rfl) (fun _ _ => rfl) (fun _ _ => rfl)
        (fun _ _ => rfl) o),
    guarded_invoke_calls _ _
      (keeps_fetchNORADTLEs World.calls (fun _ _ => rfl) (fun _ _ => rfl) (fun _ _ => rfl)
        (fun _ _ => rfl) penv o)]
  simp

theorem mainLoopBody_keeps {β : Type} (f : World → β)
    (hc : ∀ w c, f { w with console := c } = f w) (hf : ∀ w fs, f { w with files := fs } = f w)
    (he : ∀ w l, f { w with errLog := l } = f w)
    (hr : ∀ w r, f { w with requests := r } = f w)
    (hcalls : ∀ w c, f { w with calls := c } = f w) (penv : ProcessEnv) (o : Oracle) :
    Keeps f (mainLoopBody penv o) := by
  intro w
  rw [mainLoopBody_run]
  simp only []
  rw [keeps_guarded f hc _
      (keeps_invoke f hcalls _ _ (keeps_fetchAndParseSatNOGSTLEs f hc hf he hr o)),
    keeps_guarded f hc _
      (keeps_invoke f hcalls _ _ (keeps_fetchAndParseCelesTrackTLEs f hc hf he hr o)),
    keeps_guarded f hc _ (keeps_invoke f hcalls _ _ (keeps_fetchNORADTLEs f hc hf he hr penv o))]

theorem main_run_of_credentials (penv : ProcessEnv) (oracles : Nat → Oracle) (fuel : Nat)
    (w : World) (huser : truthyText penv.SPACETRACK_USERNAME = true)
    (hpass : truthyText penv.SPACETRACK_PASSWORD = true) :
    main penv oracles (fuel + 1) w =
      (.rejected (.typeError "(intermediate value).now is not a function"),
        (mainLoopBody penv (oracles 0) w).2) := by
  simp only [main, huser, hpass, Bool.not_true, Bool.or_self, Bool.false_eq_true, if_false,
    whileTrue]
  rw [mainLoopBody_run]

/-! ### Requests issued by the hourly adapters -/

theorem tryCatch_guard_open (entry : World → Option Nat) (limit : Nat) (skip body : JS Unit)
    (handler : JsError → JS Unit) (w : World) (h : truthyNumber (entry w) = false) :
    JS.tryCatch
        (JS.read >>= fun w0 => updatedWithin (entry w0) limit >>= fun recent =>
          if recent = true then skip else body)
        handler w =
      JS.tryCatch body handler w := by
  simp only [JS.tryCatch, bind_run, JS.bind, JS.read, updatedWithin_run_falsy _ _ h,
    Bool.false_eq_true, if_false]

theorem requests_tryCatch_axios {α : Type} (r : Request) (out : Except JsError α)
    (K : α → JS Unit) (handler : JsError → JS Unit)
    (hK : ∀ a, Keeps World.requests (K a)) (hh : ∀ e, Keeps World.requests (handler e))
    (w : World) :
    (JS.tryCatch (axios r out >>= K) handler w).2.requests = w.requests ++ [r] := by
  have h1 : (axios r out) w = (out, { w with requests := w.requests ++ [r] }) := rfl
  simp only [JS.tryCatch, bind_run, JS.bind, h1]
  cases out with
  | error e => exact hh e _
  | ok a =>
    have hk := hK a { w with requests := w.requests ++ [r] }
    dsimp only
    generalize K a { w with requests := w.requests ++ [r] } = p at hk ⊢
    rcases p with ⟨res, w2⟩
    cases res with
    | ok u => exact hk
    | error e => exact (hh e w2).trans hk

theorem requests_fetchAndParseCelesTrackTLEs (o : Oracle) (w : World)
    (hguard : truthyNumber w.db_updates.celestrak = false) :
    (fetchAndParseCelesTrackTLEs o w).2.requests = w.requests ++ [.celestrak] := by
  unfold fetchAndParseCelesTrackTLEs
  rw [tryCatch_guard_open (fun w => w.db_updates.celestrak) 3600 _ _ _ w hguard]
  apply requests_tryCatch_axios
  · intro data
    have hc : ∀ (w : World) (c : List ConsoleLine),
        World.requests { w with console := c } = World.requests w := fun _ _ => rfl
    have hf : ∀ (w : World) (fs : String → Option FileContent),
        World.requests { w with files := fs } = World.requests w := fun _ _ => rfl
    have he : ∀ (w : World) (l : List LogEntry),
        World.requests { w with errLog := l } = World.requests w := fun _ _ => rfl
    repeat' first
      | exact keeps_pure _ _
      | exact keeps_consoleLog _ hc _
      | exact keeps_writeFileSync _ hf _ _ _
      | exact keeps_bind_epochSeconds _ _
      | exact keeps_forEachIndex _ _ (fun _ _ => keeps_celestrakBlock _ he _ _ _ _) _ _
      | refine keeps_bind _ _ _ ?_ (fun _ => ?_)
  · intro e
    exact keeps_bind _ _ _ (keeps_consoleError World.requests (fun _ _ => rfl) _ _)
      (fun _ => keeps_appendErrLog World.requests (fun _ _ => rfl) _ _)

theorem requests_fetchAndParseSatNOGSTLEs (o : Oracle) (w : World)
    (hguard : truthyNumber w.db_updates.satnogs = false) :
    (fetchAndParseSatNOGSTLEs o w).2.requests = w.requests ++ [.satnogs] := by
  unfold fetchAndParseSatNOGSTLEs
  rw [tryCatch_guard_open (fun w => w.db_updates.satnogs) 3600 _ _ _ w hguard]
  apply requests_tryCatch_axios
  · intro satellites
    have hc : ∀ (w : World) (c : List ConsoleLine),
        World.requests { w with console := c } = World.requests w := fun _ _ => rfl
    have hf : ∀ (w : World) (fs : String → Option FileContent),
        World.requests { w with files := fs } = World.requests w := fun _ _ => rfl
    have he : ∀ (w : World) (l : List LogEntry),
        World.requests { w with errLog := l } = World.requests w := fun _ _ => rfl
    repeat' first
      | exact keeps_pure _ _ | exact keeps_throw _ _
      | exact keeps_consoleLog _ hc _
      | exact keeps_writeFileSync _ hf _ _ _
      | exact keeps_appendErrLog _ he _ _
      | exact keeps_collectTleData _ _ _
      | exact keeps_bind_epochSeconds _ _
      | refine keeps_bind _ _ _ ?_ (fun _ => ?_)
      | split
  · intro e
    exact keeps_bind _ _ _ (keeps_consoleError World.requests (fun _ _ => rfl) _ _)
      (fun _ => keeps_appendErrLog World.requests (fun _ _ => rfl) _ _)

/-! ### Requests issued during one cycle -/

theorem grows_of_keeps {α : Type} (x : JS α) (h : Keeps World.requests x) : Grows x := by
  intro w
  rw [h w]

theorem grows_bind {α β : Type} (x : JS α) (g : α → JS β) (hx : Grows x)
    (hg : ∀ a, Grows (g a)) : Grows (x >>= g) := by
  intro w
  rw [bind_run]
  unfold JS.bind
  have h1 := hx w
  generalize x w = p at h1 ⊢
  rcases p with ⟨r, w1⟩
  cases r with
  | ok a => exact h1.trans (hg a w1)
  | error e => exact h1

theorem grows_tryCatch {α : Type} (x : JS α) (g : JsError → JS α) (hx : Grows x)
    (hg : ∀ e, Grows (g e)) : Grows (JS.tryCatch x g) := by
  intro w
  unfold JS.tryCatch
  have h1 := hx w
  generalize x w = p at h1 ⊢
  rcases p with ⟨r, w1⟩
  cases r with
  | ok a => exact h1
  | error e => exact h1.trans (hg e w1)

theorem grows_axios {α : Type} (r : Request) (out : Except JsError α) : Grows (axios r out) :=
  fun w => List.prefix_append w.requests [r]

theorem grows_fetchNORADTLEs (penv : ProcessEnv) (o : Oracle) : Grows (fetchNORADTLEs penv o) := by
  have hc : ∀ (w : World) (c : List ConsoleLine),
      World.requests { w with console := c } = World.requests w := fun _ _ => rfl
  have hf : ∀ (w : World) (fs : String → Option FileContent),
      World.requests { w with files := fs } = World.requests w := fun _ _ => rfl
  have he : ∀ (w : World) (l : List LogEntry),
      World.requests { w with errLog := l } = World.requests w := fun _ _ => rfl
  unfold fetchNORADTLEs
  repeat' first
    | exact grows_axios _ _
    | exact grows_of_keeps _ (keeps_read _)
    | exact grows_of_keeps _ (keeps_pure _ _)
    | exact grows_of_keeps _ (keeps_throw _ _)
    | exact grows_of_keeps _ (keeps_updatedWithin _ _ _)
    | exact grows_of_keeps _ (keeps_consoleLog _ hc _)
    | exact grows_of_keeps _ (keeps_consoleError _ hc _ _)
    | exact grows_of_keeps _ (keeps_writeFileSync _ hf _ _ _)
    | exact grows_of_keeps _ (keeps_appendErrLog _ he _ _)
    | exact grows_of_keeps _ (keeps_bind_epochSeconds _ _)
    | exact grows_of_keeps _
        (keeps_forEachIndex _ _ (fun _ _ => keeps_noradBlock _ he _ _ _ _) _ _)
    | refine grows_tryCatch _ _ ?_ (fun _ => ?_)
    | refine grows_bind _ _ ?_ (fun _ => ?_)
    | split

theorem guarded_invoke_obs {β : Type} (f : World → β)
    (hc : ∀ w c, f { w with console := c } = f w) (a : Adapter) (x : JS Unit) (m : String)
    (w : World) :
    f ((JS.tryCatch (invoke a x) (fun error => consoleError m (some error))) w).2 =
      f (x { w with calls := w.calls ++ [a] }).2 := by
  unfold JS.tryCatch
  have h1 : invoke a x w = x { w with calls := w.calls ++ [a] } := rfl
  rw [h1]
  generalize x { w with calls := w.calls ++ [a] } = p
  rcases p with ⟨r, w1⟩
  cases r with
  | ok u => rfl
  | error e => exact hc w1 _

theorem mainLoopBody_requests (penv : ProcessEnv) (o : Oracle) (w : World)
    (hcel : truthyNumber w.db_updates.celestrak = false)
    (hsat : truthyNumber w.db_updates.satnogs = false) :
    ∃ noradRequests,
      (mainLoopBody penv o w).2.requests =
        w.requests ++ noradRequests ++ [Request.celestrak, Request.satnogs] := by
  have hdb1 := keeps_guarded World.db_updates (fun _ _ => rfl) _
    (keeps_invoke World.db_updates (fun _ _ => rfl) Adapter.fetchNORADTLEs _
      (keeps_fetchNORADTLEs World.db_updates (fun _ _ => rfl) (fun _ _ => rfl) (fun _ _ => rfl)
        (fun _ _ => rfl) penv o)) "Error:" w
  have hdb2 := keeps_guarded World.db_updates (fun _ _ => rfl) _
    (keeps_invoke World.db_updates (fun _ _ => rfl) Adapter.fetchAndParseCelesTrackTLEs _
      (keeps_fetchAndParseCelesTrackTLEs World.db_updates (fun _ _ => rfl) (fun _ _ => rfl)
        (fun _ _ => rfl) (fun _ _ => rfl) o)) "Error:"
  obtain ⟨noradRequests, hn⟩ := grows_fetchNORADTLEs penv o
    { w with calls := w.calls ++ [Adapter.fetchNORADTLEs] }
  refine ⟨noradRequests, ?_⟩
  rw [mainLoopBody_run]
  dsimp only
  generalize hw1 : (JS.tryCatch (invoke Adapter.fetchNORADTLEs (fetchNORADTLEs penv o))
    (fun error => consoleError "Error:" (some error)) w).2 = w1 at hdb1 ⊢
  have hr1 : w1.requests = w.requests ++ noradRequests := by
    rw [← hw1, guarded_invoke_obs World.requests (fun _ _ => rfl)]
    exact hn.symm
  have hdb2 := hdb2 w1
  generalize hw2 : (JS.tryCatch
    (invoke Adapter.fetchAndParseCelesTrackTLEs (fetchAndParseCelesTrackTLEs o))
    (fun error => consoleError "Error:" (some error)) w1).2 = w2 at hdb2 ⊢
  have hr2 : w2.requests = w1.requests ++ [Request.celestrak] := by
    rw [← hw2, guarded_invoke_obs World.requests (fun _ _ => rfl)]
    exact requests_fetchAndParseCelesTrackTLEs o _ (by rw [← hdb1] at hcel; exact hcel)
  rw [guarded_invoke_obs World.requests (fun _ _ => rfl),
    requests_fetchAndParseSatNOGSTLEs o _ (by rw [← hdb1, ← hdb2] at hsat; exact hsat)]
  show w2.requests ++ [Request.satnogs] = _
  rw [hr2, hr1]
  simp

/-! ### Reachable states -/

theorem reachable_db_updates {w : World} (h : Reachable w) : w.db_updates = {} := by
  induction h with
  | start => rfl
  | afterNORAD penv o _ ih =>
    rw [keeps_fetchNORADTLEs World.db_updates (fun _ _ => rfl) (fun _ _ => rfl)
      (fun _ _ => rfl) (fun _ _ => rfl) penv o]
    exact ih
  | afterCelesTrak o _ ih =>
    rw [keeps_fetchAndParseCelesTrackTLEs World.db_updates (fun _ _ => rfl) (fun _ _ => rfl)
      (fun _ _ => rfl) (fun _ _ => rfl) o]
    exact ih
  | afterSatNOGS o _ ih =>
    rw [keeps_fetchAndParseSatNOGSTLEs World.db_updates (fun _ _ => rfl) (fun _ _ => rfl)
      (fun _ _ => rfl) (fun _ _ => rfl) o]
    exact ih
  | afterInvoke a _ ih => exact ih
  | afterConsoleError message error _ ih => exact ih

theorem reachable_guarded (a : Adapter) (x : JS Unit)
    (hx : ∀ w, Reachable w → Reachable (x w).2) (m : String) (w : World) (hw : Reachable w) :
    Reachable (JS.tryCatch (invoke a x) (fun error => consoleError m (some error)) w).2 := by
  have h1 : invoke a x w = x { w with calls := w.calls ++ [a] } := rfl
  have h2 := hx _ (Reachable.afterInvoke a hw)
  unfold JS.tryCatch
  rw [h1]
  generalize x { w with calls := w.calls ++ [a] } = p at h2 ⊢
  rcases p with ⟨r, w1⟩
  cases r with
  | ok u => exact h2
  | error e => exact Reachable.afterConsoleError m (some e) h2

/-- The states in which a cycle of `main` ends are among the reachable ones. -/
theorem reachable_mainLoopBody (penv : ProcessEnv) (o : Oracle) (w : World)
    (hw : Reachable w) : Reachable (mainLoopBody penv o w).2 := by
  rw [mainLoopBody_run]
  exact reachable_guarded _ _ (fun _ h => Reachable.afterSatNOGS o h) _ _
    (reachable_guarded _ _ (fun _ h => Reachable.afterCelesTrak o h) _ _
      (reachable_guarded _ _ (fun _ h => Reachable.afterNORAD penv o h) _ _ hw))

/-- The states in which `main` returns or is rejected are among the reachable ones. -/
theorem reachable_main (penv : ProcessEnv) (oracles : Nat → Oracle) (fuel : Nat) (w : World)
    (hw : Reachable w) : Reachable (main penv oracles fuel w).2 := by
  unfold main
  split
  · exact Reachable.afterConsoleError _ _ hw
  · suffices key : ∀ fuel k w, Reachable w →
        Reachable (whileTrue (fun k => mainLoopBody penv (oracles k)) fuel k w).2 from
      key fuel 0 w hw
    intro fuel
    induction fuel with
    | zero => exact fun _ _ h => h
    | succ fuel ih =>
      intro k w h
      have h1 := reachable_mainLoopBody penv (oracles k) w h
      unfold whileTrue
      generalize mainLoopBody penv (oracles k) w = p at h1 ⊢
      rcases p with ⟨r, w1⟩
      cases r with
      | ok u => exact ih (k + 1) w1 h1
      | error e => exact h1

theorem guardPasses_of_unset (limit : Nat) (w : World) : guardPasses none limit w :=
  rfl

theorem prefix_tryCatch_axios {α : Type} (r : Request) (out : Except JsError α)
    (K : α → JS Unit) (handler : JsError → JS Unit)
    (hK : ∀ a, Grows (K a)) (hh : ∀ e, Grows (handler e)) (w : World) :
    w.requests ++ [r] <+: (JS.tryCatch (axios r out >>= K) handler w).2.requests := by
  have h1 : (axios r out) w = (out, { w with requests := w.requests ++ [r] }) := rfl
  simp only [JS.tryCatch, bind_run, JS.bind, h1]
  cases out with
  | error e => exact hh e { w with requests := w.requests ++ [r] }
  | ok a =>
    have hk := hK a { w with requests := w.requests ++ [r] }
    dsimp only
    generalize K a { w with requests := w.requests ++ [r] } = p at hk ⊢
    rcases p with ⟨res, w2⟩
    cases res with
    | ok u => exact hk
    | error e => exact hk.trans (hh e w2)

theorem requests_fetchNORADTLEs_login (penv : ProcessEnv) (o : Oracle) (w : World)
    (hguard : truthyNumber w.db_updates.norad = false)
    (huser : truthyText penv.SPACETRACK_USERNAME = true)
    (hpass : truthyText penv.SPACETRACK_PASSWORD = true) :
    w.requests ++ [.spaceTrackLogin (loginForm penv)] <+:
      (fetchNORADTLEs penv o w).2.requests := by
  have hc : ∀ (w : World) (c : List ConsoleLine),
      World.requests { w with console := c } = World.requests w := fun _ _ => rfl
  have hf : ∀ (w : World) (fs : String → Option FileContent),
      World.requests { w with files := fs } = World.requests w := fun _ _ => rfl
  have he : ∀ (w : World) (l : List LogEntry),
      World.requests { w with errLog := l } = World.requests w := fun _ _ => rfl
  unfold fetchNORADTLEs
  rw [tryCatch_guard_open (fun w => w.db_updates.norad) 86400 _ _ _ w hguard]
  simp only [huser, hpass, Bool.not_true, Bool.or_self, Bool.false_eq_true, if_false]
  apply prefix_tryCatch_axios
  · intro authResponse
    repeat' first
      | exact grows_axios _ _
      | exact grows_of_keeps _ (keeps_pure _ _)
      | exact grows_of_keeps _ (keeps_throw _ _)
      | exact grows_of_keeps _ (keeps_consoleLog _ hc _)
      | exact grows_of_keeps _ (keeps_writeFileSync _ hf _ _ _)
      | exact grows_of_keeps _ (keeps_bind_epochSeconds _ _)
      | exact grows_of_keeps _
          (keeps_forEachIndex _ _ (fun _ _ => keeps_noradBlock _ he _ _ _ _) _ _)
      | refine grows_bind _ _ ?_ (fun _ => ?_)
      | split
  · intro e
    exact grows_of_keeps _ (keeps_bind _ _ _ (keeps_consoleError World.requests hc _ _)
      (fun _ => keeps_appendErrLog World.requests he _ _))

/-! ### Names and diagnostics of the snapshots -/

theorem map_name_celestrakRecord (o : Oracle) (tleLines : List Text) (l : List Nat) :
    (l.filterMap (celestrakRecord o tleLines)).map SatInfo.name =
      (l.filter fun k => accepts o (blockTle3 tleLines k)).map
        (fun k => some (trim (tleLines.getD (3 * k) []))) := by
  induction l with
  | nil => rfl
  | cons k rest ih =>
    simp only [List.filterMap_cons, List.filter_cons, celestrakRecord, accepts]
    cases o.getSatelliteInfo (blockTle3 tleLines k) with
    | ok satInfo => simpa [blockName3] using ih
    | error e => simpa using ih

theorem mem_filterMap_noradRecord (o : Oracle) (tleLines : List Text) (n : Nat)
    (s : SatInfo) (h : s ∈ (List.range n).filterMap (noradRecord o tleLines)) :
    ∃ k, k < n ∧ o.getSatelliteInfo (blockTle2 tleLines k) = .ok s := by
  rw [List.mem_filterMap] at h
  obtain ⟨k, hk, hs⟩ := h
  refine ⟨k, List.mem_range.mp hk, ?_⟩
  unfold noradRecord at hs
  cases hp : o.getSatelliteInfo (blockTle2 tleLines k) with
  | ok satInfo =>
    rw [hp] at hs
    simp only [Option.some.injEq] at hs
    rw [hs]
  | error e =>
    rw [hp] at hs
    cases hs

theorem filterMap_returnedWarning (tleLines : List Text) (pv : Nat → PositionAndVelocity)
    (l : List Nat) :
    l.filterMap (returnedWarning tleLines pv) =
      (l.filter fun k => !((pv k).position.isSome && (pv k).velocity.isSome)).map
        (fun k => ConsoleLine.warn "Propagation failed for satellite:"
          (trim (tleLines.getD (3 * k) []))) := by
  induction l with
  | nil => rfl
  | cons k rest ih =>
    cases hp : ((pv k).position.isSome && (pv k).velocity.isSome) with
    | true =>
      have h1 : returnedWarning tleLines pv k = none := by
        unfold returnedWarning hasPositionAndVelocity
        rw [hp]
        rfl
      rw [List.filterMap_cons_none h1, List.filter_cons_of_neg (by rw [hp]; decide)]
      exact ih
    | false =>
      have h1 : returnedWarning tleLines pv k =
          some (ConsoleLine.warn "Propagation failed for satellite:"
            (trim (tleLines.getD (3 * k) []))) := by
        unfold returnedWarning hasPositionAndVelocity
        rw [hp]
        rfl
      rw [List.filterMap_cons_some h1, List.filter_cons_of_pos (by rw [hp]; decide),
        List.map_cons, ih]

/-! ## The claims -/

/-- C1: in every state the module can be in when an adapter is called, and for every current
time `now`, the guard at the top of each adapter lets the fetch proceed exactly when the
source is due, that is, when `db_updates[source]` is unset or
`now - db_updates[source] >= cadence[source]` (3600 s for CelesTrak and SatNOGS, 86400 s for
the space-data-center adapter). `db_updates` is private to the module and is never stored
into, so in these states every entry is unset: the source is due whatever `now` is, the guard
does not read the clock, and the fetch proceeds: the hourly adapters issue their request
and, given credentials, the space-data-center adapter issues its login request. -/
theorem guard_lets_fetch_proceed_iff_due (penv : ProcessEnv) (o : Oracle) (w : World)
    (hw : Reachable w) (now : Nat) :
    (guardPasses w.db_updates.celestrak 3600 w ↔ isDue w.db_updates.celestrak now 3600 = true) ∧
    (guardPasses w.db_updates.satnogs 3600 w ↔ isDue w.db_updates.satnogs now 3600 = true) ∧
    (guardPasses w.db_updates.norad 86400 w ↔ isDue w.db_updates.norad now 86400 = true) ∧
    (isDue w.db_updates.celestrak now 3600 = true ∧ isDue w.db_updates.satnogs now 3600 = true ∧
      isDue w.db_updates.norad now 86400 = true) ∧
    (fetchAndParseCelesTrackTLEs o w).2.requests = w.requests ++ [Request.celestrak] ∧
    (fetchAndParseSatNOGSTLEs o w).2.requests = w.requests ++ [Request.satnogs] ∧
    (truthyText penv.SPACETRACK_USERNAME = true → truthyText penv.SPACETRACK_PASSWORD = true →
      w.requests ++ [Request.spaceTrackLogin (loginForm penv)] <+:
        (fetchNORADTLEs penv o w).2.requests) := by
  have hdb := reachable_db_updates hw
  have h1 : w.db_updates.celestrak = none := by rw [hdb]
  have h2 : w.db_updates.satnogs = none := by rw [hdb]
  have h3 : w.db_updates.norad = none := by rw [hdb]
  refine ⟨?_, ?_, ?_, ?_, ?_, ?_, ?_⟩
  · rw [h1]
    exact ⟨fun _ => rfl, fun _ => guardPasses_of_unset 3600 w⟩
  · rw [h2]
    exact ⟨fun _ => rfl, fun _ => guardPasses_of_unset 3600 w⟩
  · rw [h3]
    exact ⟨fun _ => rfl, fun _ => guardPasses_of_unset 86400 w⟩
  · rw [h1, h2, h3]
    exact ⟨rfl, rfl, rfl⟩
  · exact requests_fetchAndParseCelesTrackTLEs o w (by rw [h1]; rfl)
  · exact requests_fetchAndParseSatNOGSTLEs o w (by rw [h2]; rfl)
  · intro huser hpass
    exact requests_fetchNORADTLEs_login penv o w (by rw [h3]; rfl) huser hpass

/-- C1 in the state left by a first cycle of `main` in which every request, parse and file
operation succeeded, one second later: every source is still due and is fetched again. -/
theorem guard_lets_fetch_proceed_iff_due_witness :
    isDue (mainLoopBody exampleEnv exampleOracle {}).2.db_updates.celestrak 10001 3600 = true ∧
    guardPasses (mainLoopBody exampleEnv exampleOracle {}).2.db_updates.celestrak 3600
      (mainLoopBody exampleEnv exampleOracle {}).2 ∧
    (fetchAndParseCelesTrackTLEs exampleOracle
        (mainLoopBody exampleEnv exampleOracle {}).2).2.requests =
      (mainLoopBody exampleEnv exampleOracle {}).2.requests ++ [Request.celestrak] :=
  ⟨(guard_lets_fetch_proceed_iff_due exampleEnv exampleOracle
      (mainLoopBody exampleEnv exampleOracle {}).2
      (reachable_mainLoopBody exampleEnv exampleOracle {} Reachable.start) 10001).2.2.2.1.1,
   (guard_lets_fetch_proceed_iff_due exampleEnv exampleOracle
      (mainLoopBody exampleEnv exampleOracle {}).2
      (reachable_mainLoopBody exampleEnv exampleOracle {} Reachable.start) 10001).1.mpr
      (guard_lets_fetch_proceed_iff_due exampleEnv exampleOracle
        (mainLoopBody exampleEnv exampleOracle {}).2
        (reachable_mainLoopBody exampleEnv exampleOracle {} Reachable.start)
        10001).2.2.2.1.1,
   (guard_lets_fetch_proceed_iff_due exampleEnv exampleOracle
      (mainLoopBody exampleEnv exampleOracle {}).2
      (reachable_mainLoopBody exampleEnv exampleOracle {} Reachable.start) 10001).2.2.2.2.1⟩

/-- C2, as the code behaves: no run of an adapter changes `db_updates`, whatever the outside
world does; in particular a run whose fetch, parse and persist steps all succeed leaves
`db_updates[source]` unset, because the right-hand side of the assignment,
`Math.floor(new Date().now() / 1000)`, throws. So a run of an hourly adapter that follows a
first run from an unset entry is not skipped: both runs issue their request. The claim says
the first run sets `db_updates[source]` and the following run within the cadence makes no
fetch. -/
theorem adapters_never_set_db_updates (penv : ProcessEnv) (o o2 : Oracle) (w : World) :
    (fetchAndParseCelesTrackTLEs o w).2.db_updates = w.db_updates ∧
    (fetchAndParseSatNOGSTLEs o w).2.db_updates = w.db_updates ∧
    (fetchNORADTLEs penv o w).2.db_updates = w.db_updates ∧
    (fetchAndParseCelesTrackTLEs o2
        (fetchAndParseCelesTrackTLEs o
          { w with db_updates := { w.db_updates with celestrak := none } }).2).2.requests =
      w.requests ++ [Request.celestrak, Request.celestrak] ∧
    (fetchAndParseSatNOGSTLEs o2
        (fetchAndParseSatNOGSTLEs o
          { w with db_updates := { w.db_updates with satnogs := none } }).2).2.requests =
      w.requests ++ [Request.satnogs, Request.satnogs] := by
  have hc := keeps_fetchAndParseCelesTrackTLEs World.db_updates (fun _ _ => rfl)
    (fun _ _ => rfl) (fun _ _ => rfl) (fun _ _ => rfl) o
  have hs := keeps_fetchAndParseSatNOGSTLEs World.db_updates (fun _ _ => rfl)
    (fun _ _ => rfl) (fun _ _ => rfl) (fun _ _ => rfl) o
  refine ⟨hc w, hs w, keeps_fetchNORADTLEs World.db_updates (fun _ _ => rfl) (fun _ _ => rfl)
    (fun _ _ => rfl) (fun _ _ => rfl) penv o w, ?_, ?_⟩
  · have h1 := requests_fetchAndParseCelesTrackTLEs o
      { w with db_updates := { w.db_updates with celestrak := none } } rfl
    have h2 := requests_fetchAndParseCelesTrackTLEs o2
      (fetchAndParseCelesTrackTLEs o
        { w with db_updates := { w.db_updates with celestrak := none } }).2
      (by rw [hc]; rfl)
    rw [h2, h1]
    simp
  · have h1 := requests_fetchAndParseSatNOGSTLEs o
      { w with db_updates := { w.db_updates with satnogs := none } } rfl
    have h2 := requests_fetchAndParseSatNOGSTLEs o2
      (fetchAndParseSatNOGSTLEs o
        { w with db_updates := { w.db_updates with satnogs := none } }).2
      (by rw [hs]; rfl)
    rw [h2, h1]
    simp

/-- C3: whatever the outside world does during a cycle (any request, parse or file operation
of any adapter may fail) and whatever the state before it, one run of the loop body of `main`
invokes `fetchNORADTLEs`, then `fetchAndParseCelesTrackTLEs`, then
`fetchAndParseSatNOGSTLEs`, each exactly once and in that order. The later adapters do run:
when the entries of the hourly sources are unset, the CelesTrak request and then the SatNOGS
request are issued after whatever requests the space-data-center adapter made, however that
adapter and the CelesTrak adapter ended. -/
theorem cycle_invokes_each_adapter_once_in_order (penv : ProcessEnv) (o : Oracle) (w : World) :
    (mainLoopBody penv o w).2.calls =
      w.calls ++ [Adapter.fetchNORADTLEs, Adapter.fetchAndParseCelesTrackTLEs,
        Adapter.fetchAndParseSatNOGSTLEs] ∧
    (truthyNumber w.db_updates.celestrak = false → truthyNumber w.db_updates.satnogs = false →
      ∃ noradRequests,
        (mainLoopBody penv o w).2.requests =
          w.requests ++ noradRequests ++ [Request.celestrak, Request.satnogs]) :=
  ⟨mainLoopBody_calls penv o w, mainLoopBody_requests penv o w⟩

/-- C3 at a cycle in which the Space-Track login is refused and the CelesTrak request fails:
all three adapters are invoked and the later requests are issued. -/
theorem cycle_invokes_each_adapter_once_in_order_witness :
    (mainLoopBody exampleEnv
        { exampleOracle with
          spaceTrackLogin := fun _ => .error (.library "ECONNREFUSED")
          celestrak := .error (.library "ETIMEDOUT") } {}).2.calls =
      [Adapter.fetchNORADTLEs, Adapter.fetchAndParseCelesTrackTLEs,
        Adapter.fetchAndParseSatNOGSTLEs] ∧
    ∃ noradRequests,
      (mainLoopBody exampleEnv
          { exampleOracle with
            spaceTrackLogin := fun _ => .error (.library "ECONNREFUSED")
            celestrak := .error (.library "ETIMEDOUT") } {}).2.requests =
        ({} : World).requests ++ noradRequests ++ [Request.celestrak, Request.satnogs] :=
  ⟨(cycle_invokes_each_adapter_once_in_order exampleEnv
      { exampleOracle with
        spaceTrackLogin := fun _ => .error (.library "ECONNREFUSED")
        celestrak := .error (.library "ETIMEDOUT") } {}).1,
   (cycle_invokes_each_adapter_once_in_order exampleEnv
      { exampleOracle with
        spaceTrackLogin := fun _ => .error (.library "ECONNREFUSED")
        celestrak := .error (.library "ETIMEDOUT") } {}).2 rfl rfl⟩

/-- C4, as the code behaves: with both credentials present (non-empty), `main` does not keep
running: in its first iteration, after the three adapters were invoked, the statement
`db_updates['latest'] = Math.floor(new Date().now() / 1000)` throws outside any `try`, the
exception leaves the loop and rejects the promise of `main`; no timer was awaited and
`db_updates` is as before. The claim says no error escapes the loop and the sleep is
reached. -/
theorem main_rejects_in_first_iteration (u p : Char) (us ps : Text) (oracles : Nat → Oracle)
    (fuel : Nat) (w : World) :
    (main ⟨some (u :: us), some (p :: ps)⟩ oracles (fuel + 1) w).1 =
      .rejected (.typeError "(intermediate value).now is not a function") ∧
    (main ⟨some (u :: us), some (p :: ps)⟩ oracles (fuel + 1) w).2.sleeps = w.sleeps ∧
    (main ⟨some (u :: us), some (p :: ps)⟩ oracles (fuel + 1) w).2.db_updates = w.db_updates ∧
    (main ⟨some (u :: us), some (p :: ps)⟩ oracles (fuel + 1) w).2.calls =
      w.calls ++ [Adapter.fetchNORADTLEs, Adapter.fetchAndParseCelesTrackTLEs,
        Adapter.fetchAndParseSatNOGSTLEs] := by
  have hmain := main_run_of_credentials ⟨some (u :: us), some (p :: ps)⟩ oracles fuel w rfl rfl
  rw [hmain]
  refine ⟨rfl, ?_, ?_, mainLoopBody_calls _ _ _⟩
  · exact mainLoopBody_keeps World.sleeps (fun _ _ => rfl) (fun _ _ => rfl) (fun _ _ => rfl)
      (fun _ _ => rfl) (fun _ _ => rfl) _ _ w
  · exact mainLoopBody_keeps World.db_updates (fun _ _ => rfl) (fun _ _ => rfl)
      (fun _ _ => rfl) (fun _ _ => rfl) (fun _ _ => rfl) _ _ w

/-- C5, as the code behaves: for a response of `n` complete blocks (3 lines per block for
CelesTrak, 2 for the space-data-center) and any behaviour of the parser, with the file
operations succeeding, the parsed snapshot holds exactly the records of the accepted blocks in
input order, but the error log gains the lines of the rejected blocks in input order and then
one more line, written by the adapter's outer `catch` when the update of `db_updates` throws
after the snapshot was saved. The claim says the log gains one line per rejected block and no
other. -/
theorem rejected_blocks_and_one_more_log_line (penv : ProcessEnv) (o : Oracle) (w : World)
    (hfs : ∀ f, o.fsFails f = false) :
    (∀ data n, truthyNumber w.db_updates.celestrak = false → o.celestrak = .ok data →
      (split '\n' (trim data)).length = 3 * n →
      (fetchAndParseCelesTrackTLEs o w).2.files "celestrak_tles.json" =
        some (.satellitesJson
          ((List.range n).filterMap (celestrakRecord o (split '\n' (trim data))))) ∧
      (fetchAndParseCelesTrackTLEs o w).2.errLog =
        w.errLog ++ (List.range n).filterMap (celestrakParseError o (split '\n' (trim data))) ++
          [.celestrakFetch (.typeError "(intermediate value).now is not a function")]) ∧
    (∀ auth cookies response n, truthyNumber w.db_updates.norad = false →
      truthyText penv.SPACETRACK_USERNAME = true → truthyText penv.SPACETRACK_PASSWORD = true →
      o.spaceTrackLogin (loginForm penv) = .ok auth → auth.status = 200 →
      auth.setCookie = some cookies →
      o.spaceTrackQuery (cookieHeader cookies) = .ok response → response.status = 200 →
      (split '\n' (trim response.data)).length = 2 * n →
      (fetchNORADTLEs penv o w).2.files "norad_tles.json" =
        some (.satellitesJson
          ((List.range n).filterMap (noradRecord o (split '\n' (trim response.data))))) ∧
      (fetchNORADTLEs penv o w).2.errLog =
        w.errLog ++
          (List.range n).filterMap (noradParseError o (split '\n' (trim response.data))) ++
          [.noradFetch (.typeError "(intermediate value).now is not a function")]) := by
  constructor
  · intro data n hguard hresp hlen
    rw [fetchAndParseCelesTrackTLEs_run o w data n hguard hresp hfs hlen]
    exact ⟨by simp, rfl⟩
  · intro auth cookies response n hguard huser hpass hlogin hstatus hcookies hquery hstatus2 hlen
    rw [fetchNORADTLEs_run penv o w auth cookies response n hguard huser hpass hlogin hstatus
      hcookies hquery hstatus2 hfs hlen]
    exact ⟨by simp, rfl⟩

/-- C5 at the spec's own example, one malformed and one well-formed block: one record, two
error-log lines. -/
theorem rejected_blocks_and_one_more_log_line_witness :
    (fetchAndParseCelesTrackTLEs exampleOracle {}).2.files "celestrak_tles.json" =
      some (.satellitesJson [{ payload := 7, name := some "ISS".toList }]) ∧
    (fetchAndParseCelesTrackTLEs exampleOracle {}).2.errLog =
      [.celestrakParse 0 "BAD".toList (.library "Invalid TLE"),
       .celestrakFetch (.typeError "(intermediate value).now is not a function")] ∧
    (fetchNORADTLEs exampleEnv
        { exampleOracle with
          spaceTrackQuery := fun _ => .ok { status := 200, data := "x\ny\n1 a\n2 b\n".toList } }
        {}).2.errLog =
      [.noradParse 1 "NORAD_SAT_0".toList (.library "Invalid TLE"),
       .noradFetch (.typeError "(intermediate value).now is not a function")] :=
  ⟨((rejected_blocks_and_one_more_log_line exampleEnv exampleOracle {} (fun _ => rfl)).1
      "BAD\nx\ny\nISS\n1 a\n2 b\n".toList 2 rfl rfl (by decide)).1.trans (by decide!),
   ((rejected_blocks_and_one_more_log_line exampleEnv exampleOracle {} (fun _ => rfl)).1
      "BAD\nx\ny\nISS\n1 a\n2 b\n".toList 2 rfl rfl (by decide)).2.trans (by decide!),
   ((rejected_blocks_and_one_more_log_line exampleEnv
      { exampleOracle with
        spaceTrackQuery := fun _ => .ok { status := 200, data := "x\ny\n1 a\n2 b\n".toList } }
      {} (fun _ => rfl)).2
      { status := 200, setCookie := some ["sid=abc; path=/".toList] } ["sid=abc; path=/".toList]
      { status := 200, data := "x\ny\n1 a\n2 b\n".toList } 2
      rfl rfl rfl rfl rfl rfl rfl rfl (by decide)).2.trans (by decide!)⟩

/-- C6, as the code behaves: for a response whose last block is incomplete (`3 * n + 1` or
`3 * n + 2` lines for CelesTrak, `2 * n + 1` for the space-data-center), with the file
operations succeeding, reading the missing line gives `undefined`, its `.trim()` throws
outside the per-block `try`, and the adapter's outer `catch` ends the run: no parsed snapshot
is written (the files are as before the run), the records of the `n` complete blocks are lost,
and the error log ends with the adapter-level line. The claim says the other blocks are still
processed and the parsed snapshot is written. -/
theorem incomplete_final_block_aborts_the_batch (penv : ProcessEnv) (o : Oracle) (w : World)
    (hfs : ∀ f, o.fsFails f = false) :
    (∀ data n r, truthyNumber w.db_updates.celestrak = false → o.celestrak = .ok data →
      (split '\n' (trim data)).length = 3 * n + r → 0 < r → r < 3 →
      (fetchAndParseCelesTrackTLEs o w).2.files "celestrak_tles.json" =
        w.files "celestrak_tles.json" ∧
      (fetchAndParseCelesTrackTLEs o w).2.errLog =
        w.errLog ++ (List.range n).filterMap (celestrakParseError o (split '\n' (trim data))) ++
          [.celestrakFetch
            (.typeError "Cannot read properties of undefined (reading 'trim')")]) ∧
    (∀ auth cookies response n, truthyNumber w.db_updates.norad = false →
      truthyText penv.SPACETRACK_USERNAME = true → truthyText penv.SPACETRACK_PASSWORD = true →
      o.spaceTrackLogin (loginForm penv) = .ok auth → auth.status = 200 →
      auth.setCookie = some cookies →
      o.spaceTrackQuery (cookieHeader cookies) = .ok response → response.status = 200 →
      (split '\n' (trim response.data)).length = 2 * n + 1 →
      (fetchNORADTLEs penv o w).2.files "norad_tles.json" = w.files "norad_tles.json" ∧
      (fetchNORADTLEs penv o w).2.files "norad_tles.txt" = w.files "norad_tles.txt" ∧
      (fetchNORADTLEs penv o w).2.errLog =
        w.errLog ++
          (List.range n).filterMap (noradParseError o (split '\n' (trim response.data))) ++
          [.noradFetch (.typeError "Cannot read properties of undefined (reading 'trim')")]) := by
  constructor
  · intro data n r hguard hresp hlen h0 h3
    rw [fetchAndParseCelesTrackTLEs_run_incomplete o w data n r hguard hresp hfs hlen h0 h3]
    exact ⟨by simp, rfl⟩
  · intro auth cookies response n hguard huser hpass hlogin hstatus hcookies hquery hstatus2 hlen
    rw [fetchNORADTLEs_run_incomplete penv o w auth cookies response n hguard huser hpass hlogin
      hstatus hcookies hquery hstatus2 hfs hlen]
    exact ⟨by simp, by simp, rfl⟩

/-- C6 at a CelesTrak response of four lines and a space-data-center response of three: no
parsed snapshot, one adapter-level error-log line. -/
theorem incomplete_final_block_aborts_the_batch_witness :
    (fetchAndParseCelesTrackTLEs
        { exampleOracle with celestrak := .ok "ISS\n1 a\n2 b\nDANGLING".toList } {}).2.files
        "celestrak_tles.json" = none ∧
    (fetchAndParseCelesTrackTLEs
        { exampleOracle with celestrak := .ok "ISS\n1 a\n2 b\nDANGLING".toList } {}).2.errLog =
      [.celestrakFetch
        (.typeError "Cannot read properties of undefined (reading 'trim')")] ∧
    (fetchNORADTLEs exampleEnv
        { exampleOracle with
          spaceTrackQuery := fun _ => .ok { status := 200, data := "1 a\n2 b\n1 c".toList } }
        {}).2.files "norad_tles.json" = none ∧
    (fetchNORADTLEs exampleEnv
        { exampleOracle with
          spaceTrackQuery := fun _ => .ok { status := 200, data := "1 a\n2 b\n1 c".toList } }
        {}).2.errLog =
      [.noradFetch (.typeError "Cannot read properties of undefined (reading 'trim')")] :=
  ⟨((incomplete_final_block_aborts_the_batch exampleEnv
      { exampleOracle with celestrak := .ok "ISS\n1 a\n2 b\nDANGLING".toList } {}
      (fun _ => rfl)).1 "ISS\n1 a\n2 b\nDANGLING".toList 1 1 rfl rfl (by decide) (by decide)
      (by decide)).1,
   ((incomplete_final_block_aborts_the_batch exampleEnv
      { exampleOracle with celestrak := .ok "ISS\n1 a\n2 b\nDANGLING".toList } {}
      (fun _ => rfl)).1 "ISS\n1 a\n2 b\nDANGLING".toList 1 1 rfl rfl (by decide) (by decide)
      (by decide)).2.trans (by decide!),
   ((incomplete_final_block_aborts_the_batch exampleEnv
      { exampleOracle with
        spaceTrackQuery := fun _ => .ok { status := 200, data := "1 a\n2 b\n1 c".toList } }
      {} (fun _ => rfl)).2
      { status := 200, setCookie := some ["sid=abc; path=/".toList] } ["sid=abc; path=/".toList]
      { status := 200, data := "1 a\n2 b\n1 c".toList } 1
      rfl rfl rfl rfl rfl rfl rfl rfl (by decide)).1,
   ((incomplete_final_block_aborts_the_batch exampleEnv
      { exampleOracle with
        spaceTrackQuery := fun _ => .ok { status := 200, data := "1 a\n2 b\n1 c".toList } }
      {} (fun _ => rfl)).2
      { status := 200, setCookie := some ["sid=abc; path=/".toList] } ["sid=abc; path=/".toList]
      { status := 200, data := "1 a\n2 b\n1 c".toList } 1
      rfl rfl rfl rfl rfl rfl rfl rfl (by decide)).2.2.trans (by decide!)⟩

/-- C7: if `SPACETRACK_USERNAME` or `SPACETRACK_PASSWORD` is unset or empty, `main` writes the
message `Please provide Space-Track.org credentials` to the console and returns, and nothing
else changes: no adapter is invoked, no request is made, no file or error-log line is
written and `db_updates` is as it was (empty, when `main` starts from the initial state).
So the loop is entered (an adapter is invoked) only when both values are set and non-empty;
and when they are, the first iteration does invoke the adapters. -/
theorem main_refuses_to_start_without_credentials (penv : ProcessEnv)
    (oracles : Nat → Oracle) (fuel : Nat) (w : World) :
    ((penv.SPACETRACK_USERNAME = none ∨ penv.SPACETRACK_USERNAME = some [] ∨
        penv.SPACETRACK_PASSWORD = none ∨ penv.SPACETRACK_PASSWORD = some []) →
      main penv oracles fuel w =
        (.returned,
          { w with
            console := w.console ++
              [.error "Please provide Space-Track.org credentials" none] })) ∧
    ((main penv oracles fuel w).2.calls ≠ w.calls →
      (∃ u us, penv.SPACETRACK_USERNAME = some (u :: us)) ∧
      (∃ p ps, penv.SPACETRACK_PASSWORD = some (p :: ps))) ∧
    ((∃ u us, penv.SPACETRACK_USERNAME = some (u :: us)) →
      (∃ p ps, penv.SPACETRACK_PASSWORD = some (p :: ps)) →
      (main penv oracles (fuel + 1) w).2.calls =
        w.calls ++ [Adapter.fetchNORADTLEs, Adapter.fetchAndParseCelesTrackTLEs,
          Adapter.fetchAndParseSatNOGSTLEs]) := by
  rcases penv with ⟨user, pass⟩
  have hmissing : (user = none ∨ user = some [] ∨ pass = none ∨ pass = some []) →
      main ⟨user, pass⟩ oracles fuel w =
        (.returned,
          { w with
            console := w.console ++
              [.error "Please provide Space-Track.org credentials" none] }) := by
    intro h
    have hcond : (!truthyText user || !truthyText pass) = true := by
      rcases h with h | h | h | h <;> simp_all [truthyText]
    simp only [main, hcond, if_true]
    rfl
  refine ⟨hmissing, ?_, ?_⟩
  · intro hcalls
    have hnot : ¬ (user = none ∨ user = some [] ∨ pass = none ∨ pass = some []) := by
      intro h
      rw [hmissing h] at hcalls
      exact hcalls rfl
    simp only [not_or] at hnot
    obtain ⟨h1, h2, h3, h4⟩ := hnot
    constructor
    · match user, h1, h2 with
      | some (u :: us), _, _ => exact ⟨u, us, rfl⟩
    · match pass, h3, h4 with
      | some (p :: ps), _, _ => exact ⟨p, ps, rfl⟩
  · rintro ⟨u, us, hu⟩ ⟨p, ps, hp⟩
    simp only at hu hp
    subst hu hp
    rw [main_run_of_credentials ⟨some (u :: us), some (p :: ps)⟩ oracles fuel w rfl rfl]
    exact mainLoopBody_calls _ _ _

/-- C7 at a process environment without user name, and, for the converse, at one with both
credentials. -/
theorem main_refuses_to_start_without_credentials_witness :
    main ⟨none, some "secret".toList⟩ (fun _ => exampleOracle) 3 {} =
        (.returned,
          { ({} : World) with
            console := ({} : World).console ++
              [.error "Please provide Space-Track.org credentials" none] }) ∧
    (main exampleEnv (fun _ => exampleOracle) (2 + 1) {}).2.calls =
      ({} : World).calls ++ [Adapter.fetchNORADTLEs, Adapter.fetchAndParseCelesTrackTLEs,
        Adapter.fetchAndParseSatNOGSTLEs] :=
  ⟨(main_refuses_to_start_without_credentials ⟨none, some "secret".toList⟩
      (fun _ => exampleOracle) 3 {}).1 (Or.inl rfl),
    (main_refuses_to_start_without_credentials exampleEnv (fun _ => exampleOracle) 2 {}).2.2
      ⟨'u', "ser".toList, rfl⟩ ⟨'s', "ecret".toList, rfl⟩⟩

/-- C8, as the code behaves: when the file operations succeed, (1) for a CelesTrak response of
`n` complete 3-line blocks the names of the records of `celestrak_tles.json` are, in input
order, the trimmed name lines of the accepted blocks, as claimed; (2) for a space-data-center
response of `n` complete 2-line blocks every record of `norad_tles.json` is the very object
the parser returned for its block: the loop pushes it without the `satInfo.name = name` of
the CelesTrak loop, so no record carries the synthesized name. The name `NORAD_SAT_k` only
reaches `norad_tles.txt`, as the name line of each object, with `k = Math.ceil(i / 2)`
counted from 0. The claim says the records of the parsed output carry `NORAD_SAT_1`, ...,
`NORAD_SAT_n`. -/
theorem norad_records_lack_the_synthesized_name (penv : ProcessEnv) (o : Oracle) (w : World)
    (hfs : ∀ f, o.fsFails f = false) :
    (∀ data n, truthyNumber w.db_updates.celestrak = false → o.celestrak = .ok data →
      (split '\n' (trim data)).length = 3 * n →
      ∃ satellites,
        (fetchAndParseCelesTrackTLEs o w).2.files "celestrak_tles.json" =
          some (.satellitesJson satellites) ∧
        satellites.map SatInfo.name =
          ((List.range n).filter fun k => accepts o (blockTle3 (split '\n' (trim data)) k)).map
            (fun k => some (trim ((split '\n' (trim data)).getD (3 * k) [])))) ∧
    (∀ auth cookies response n, truthyNumber w.db_updates.norad = false →
      truthyText penv.SPACETRACK_USERNAME = true → truthyText penv.SPACETRACK_PASSWORD = true →
      o.spaceTrackLogin (loginForm penv) = .ok auth → auth.status = 200 →
      auth.setCookie = some cookies →
      o.spaceTrackQuery (cookieHeader cookies) = .ok response → response.status = 200 →
      (split '\n' (trim response.data)).length = 2 * n →
      (∃ satellites,
        (fetchNORADTLEs penv o w).2.files "norad_tles.json" =
          some (.satellitesJson satellites) ∧
        satellites =
          (List.range n).filterMap (noradRecord o (split '\n' (trim response.data))) ∧
        ∀ s, s ∈ satellites →
          ∃ k, k < n ∧
            o.getSatelliteInfo (blockTle2 (split '\n' (trim response.data)) k) = .ok s) ∧
      (fetchNORADTLEs penv o w).2.files "norad_tles.txt" =
        some (.text (join ['\n'] ((List.range n).map fun k =>
          "NORAD_SAT_".toList ++ numberToText k ++ ['\n'] ++
            blockTle2 (split '\n' (trim response.data)) k)))) := by
  constructor
  · intro data n hguard hresp hlen
    refine ⟨_, ?_, map_name_celestrakRecord o (split '\n' (trim data)) (List.range n)⟩
    rw [fetchAndParseCelesTrackTLEs_run o w data n hguard hresp hfs hlen]
    simp
  · intro auth cookies response n hguard huser hpass hlogin hstatus hcookies hquery hstatus2 hlen
    rw [fetchNORADTLEs_run penv o w auth cookies response n hguard huser hpass hlogin hstatus
      hcookies hquery hstatus2 hfs hlen]
    refine ⟨⟨_, ?_, rfl, fun s hs => mem_filterMap_noradRecord o _ n s hs⟩, ?_⟩
    · simp
    · dsimp only
      rw [if_neg (by decide), if_pos rfl]
      rfl

/-- C8 at a space-data-center batch of three objects that all parse: the three records of
`norad_tles.json` have no name, so their names are not `NORAD_SAT_1`, `NORAD_SAT_2`,
`NORAD_SAT_3`; the names written to `norad_tles.txt` are `NORAD_SAT_0`, `NORAD_SAT_1`,
`NORAD_SAT_2`. -/
theorem norad_records_lack_the_synthesized_name_witness :
    (∃ satellites,
      (fetchNORADTLEs exampleEnv exampleOracle {}).2.files "norad_tles.json" =
        some (.satellitesJson satellites) ∧
      satellites.map SatInfo.name = [none, none, none] ∧
      satellites.map SatInfo.name ≠
        [some "NORAD_SAT_1".toList, some "NORAD_SAT_2".toList, some "NORAD_SAT_3".toList]) ∧
    (fetchNORADTLEs exampleEnv exampleOracle {}).2.files "norad_tles.txt" =
      some (.text
        "NORAD_SAT_0\n1 a\n2 b\nNORAD_SAT_1\n1 c\n2 d\nNORAD_SAT_2\n1 e\n2 f".toList) :=
  ⟨match ((norad_records_lack_the_synthesized_name exampleEnv exampleOracle {}
        (fun _ => rfl)).2
      { status := 200, setCookie := some ["sid=abc; path=/".toList] } ["sid=abc; path=/".toList]
      { status := 200, data := "1 a\n2 b\n1 c\n2 d\n1 e\n2 f\n".toList } 3
      rfl rfl rfl rfl rfl rfl rfl rfl (by decide)).1 with
    | ⟨s, h1, h2, _⟩ => ⟨s, h1, by rw [h2]; decide!, by rw [h2]; decide!⟩,
   (((norad_records_lack_the_synthesized_name exampleEnv exampleOracle {}
        (fun _ => rfl)).2
      { status := 200, setCookie := some ["sid=abc; path=/".toList] } ["sid=abc; path=/".toList]
      { status := 200, data := "1 a\n2 b\n1 c\n2 d\n1 e\n2 f\n".toList } 3
      rfl rfl rfl rfl rfl rfl rfl rfl (by decide)).2).trans (by decide!)⟩

/-- C9, counterexample: an input of two complete blocks where the collaborator propagates the
first object and, for the second, `propagate` throws (or returns `null`). No library call
stands in a `try` of its own, so the exception reaches the single `catch` of the function: no
snapshot is written and the first object is not included. -/
theorem snapshot_not_written_when_propagate_throws :
    (estimOrbitByTLEs
        { exampleCalcOracle with
          propagate := fun satrec _ =>
            if satrec = 1 then
              .ok (some { position := some ⟨1, 2, 3⟩, velocity := some ⟨4, 5, 6⟩ })
            else .error (.library "propagation failed") }
        "tles.txt" "estim_orbits.json" {}).2.files "estim_orbits.json" = none ∧
    (estimOrbitByTLEs
        { exampleCalcOracle with
          propagate := fun satrec _ =>
            if satrec = 1 then
              .ok (some { position := some ⟨1, 2, 3⟩, velocity := some ⟨4, 5, 6⟩ })
            else .error (.library "propagation failed") }
        "tles.txt" "estim_orbits.json" {}).2.console =
      [.error "Error fetching or parsing NORAD TLEs:"
        (some (.library "propagation failed"))] ∧
    (estimOrbitByTLEs
        { exampleCalcOracle with
          propagate := fun satrec _ =>
            if satrec = 1 then
              .ok (some { position := some ⟨1, 2, 3⟩, velocity := some ⟨4, 5, 6⟩ })
            else .ok none }
        "tles.txt" "estim_orbits.json" {}).2.files "estim_orbits.json" = none := by
  decide!

/-- C9, amended: for an input file that can be read and whose text, split as the function
splits it, has `3 * n` lines, an output file that can be written, and any behaviour of the
propagation collaborator in which the library calls made for the `n` objects return
(`twoline2satrec` returns `satrec k`, `propagate` returns the object `pv k` and, for an
object with a position and a velocity, `gstime`, `eciToGeodetic`, `degreesLat` and
`degreesLong` return `gmst k`, `gd k`, `lat k` and `lon k`), `estimOrbitByTLEs` completes
and writes one snapshot. The snapshot holds, in input order, exactly one entry for each
object whose propagation has both a position and a velocity, with `name` the trimmed name
line, `latitude` and `longitude` the degrees returned for the geodetic latitude and
longitude of its position, and `altitude` the geodetic height, and no entry for the others;
each of the others gets one `Propagation failed` diagnostic on the console, in input order,
and no other file is written. -/
theorem estimOrbitByTLEs_snapshot (c : CalcOracle) (tleFile outputOrbitsFile : String)
    (w : World) (data : Text) (n : Nat) (satrec : Nat → Nat) (pv : Nat → PositionAndVelocity)
    (gmst : Nat → Int) (gd : Nat → Geodetic) (lat lon : Nat → Int)
    (hread : c.readFileSync tleFile = .ok data)
    (hfs : c.fsFails outputOrbitsFile = false)
    (hlen : (split '\n' (trim data)).length = 3 * n)
    (hsatrec : ∀ k, k < n →
      c.twoline2satrec (trim ((split '\n' (trim data)).getD (3 * k + 1) []))
        (trim ((split '\n' (trim data)).getD (3 * k + 2) [])) = .ok (satrec k))
    (hprop : ∀ k, k < n → c.propagate (satrec k) (c.date (3 * k)) = .ok (some (pv k)))
    (hgeo : ∀ k, k < n → ∀ position, (pv k).position = some position →
      (pv k).velocity.isSome = true →
      c.gstime (c.date (3 * k)) = .ok (gmst k) ∧
      c.eciToGeodetic position (gmst k) = .ok (gd k) ∧
      c.degreesLat (gd k).latitude = .ok (lat k) ∧
      c.degreesLong (gd k).longitude = .ok (lon k)) :
    (estimOrbitByTLEs c tleFile outputOrbitsFile w).1 = .ok () ∧
    (estimOrbitByTLEs c tleFile outputOrbitsFile w).2.files outputOrbitsFile =
      some (.orbitsJson ((List.range n).filterMap fun k =>
        if ((pv k).position.isSome && (pv k).velocity.isSome) = true then
          some { name := trim ((split '\n' (trim data)).getD (3 * k) [])
                 latitude := lat k
                 longitude := lon k
                 altitude := (gd k).height }
        else none)) ∧
    (estimOrbitByTLEs c tleFile outputOrbitsFile w).2.console =
      w.console ++
        ((List.range n).filter fun k =>
            !((pv k).position.isSome && (pv k).velocity.isSome)).map
          (fun k => ConsoleLine.warn "Propagation failed for satellite:"
            (trim ((split '\n' (trim data)).getD (3 * k) []))) ++
        [.log "Parsed NORAD TLEs saved to norad_tles.json"] ∧
    (∀ f, f ≠ outputOrbitsFile →
      (estimOrbitByTLEs c tleFile outputOrbitsFile w).2.files f = w.files f) := by
  rw [estimOrbitByTLEs_run c tleFile outputOrbitsFile w data n satrec pv gmst gd lat lon hread
    hfs hlen hsatrec hprop hgeo]
  refine ⟨rfl, ?_, ?_, ?_⟩
  · dsimp only
    rw [if_pos rfl]
    rfl
  · dsimp only
    rw [filterMap_returnedWarning]
  · intro f hf
    dsimp only
    rw [if_neg hf]

/-- C9 (amended) at an input of two blocks of which the second has no position: one entry,
built from what the calls returned for the first object, and one diagnostic. -/
theorem estimOrbitByTLEs_snapshot_witness :
    (estimOrbitByTLEs exampleCalcOracle "tles.txt" "estim_orbits.json" {}).2.files
        "estim_orbits.json" =
      some (.orbitsJson
        [{ name := "ISS".toList, latitude := 10, longitude := 200, altitude := 3 }]) ∧
    (estimOrbitByTLEs exampleCalcOracle "tles.txt" "estim_orbits.json" {}).2.console =
      [.warn "Propagation failed for satellite:" "DECAYED".toList,
       .log "Parsed NORAD TLEs saved to norad_tles.json"] := by
  have h := estimOrbitByTLEs_snapshot exampleCalcOracle "tles.txt" "estim_orbits.json" {}
    "ISS\n1 a\n2 b\nDECAYED\n1 c\n2 d\n".toList 2
    (fun k => if k = 0 then 1 else 0)
    (fun k =>
      if k = 0 then { position := some ⟨1, 2, 3⟩, velocity := some ⟨4, 5, 6⟩ }
      else { position := none, velocity := none })
    (fun _ => 0) (fun _ => { latitude := 1, longitude := 2, height := 3 })
    (fun _ => 10) (fun _ => 200) rfl rfl (by decide)
    (by
      intro k hk
      interval_cases k
      · rfl
      · rfl)
    (by
      intro k hk
      interval_cases k
      · rfl
      · rfl)
    (by
      intro k hk position hp _
      have hk0 : k = 0 := by
        rcases Nat.lt_or_ge k 1 with h1 | h1
        · omega
        · have : k = 1 := by omega
          subst this
          simp at hp
      subst hk0
      simp only [if_true, Option.some.injEq] at hp
      subst hp
      exact ⟨rfl, rfl, rfl, rfl⟩)
  exact ⟨h.2.1.trans (by decide!), h.2.2.1.trans (by decide!)⟩

/-- C10, counterexample: a first element line with four spaces before an upper-case letter.
After the normalization two spaces still stand before the letter, and a second application
changes the string again. -/
theorem normalization_leaves_artifact :
    normalizeLine1 "1 00005U    B".toList = "1 00005U  B".toList ∧
    hasDoubleSpaceBeforeUpper (normalizeLine1 "1 00005U    B".toList) = true ∧
    normalizeLine1 (normalizeLine1 "1 00005U    B".toList) ≠
      normalizeLine1 "1 00005U    B".toList := by
  decide!

/-- C10, amended: for every first element line, the normalized string still contains two
spaces immediately followed by a letter `A`-`Z` exactly when the trimmed line contains four
consecutive spaces immediately followed by such a letter; and applying the normalization a
second time changes nothing exactly when it does not. -/
theorem normalization_artifact_free_iff (raw : Text) :
    (hasDoubleSpaceBeforeUpper (normalizeLine1 raw) = true ↔
      hasQuadSpaceBeforeUpper (trim raw) = true) ∧
    (normalizeLine1 (normalizeLine1 raw) = normalizeLine1 raw ↔
      hasQuadSpaceBeforeUpper (trim raw) = false) := by
  have h1 : hasDoubleSpaceBeforeUpper (normalizeLine1 raw) = hasQuadSpaceBeforeUpper (trim raw) :=
    hasDouble_replace (trim raw)
  refine ⟨by rw [h1], ?_⟩
  have h2 : normalizeLine1 (normalizeLine1 raw) =
      replaceDoubleSpaceBeforeUpper (normalizeLine1 raw) := by
    show replaceDoubleSpaceBeforeUpper (trim (normalizeLine1 raw)) = _
    rw [trim_normalizeLine1]
  rw [h2, ← h1]
  constructor
  · intro heq
    cases hd : hasDoubleSpaceBeforeUpper (normalizeLine1 raw) with
    | false => rfl
    | true =>
      have := length_replace_lt_of_match _ hd
      rw [heq] at this
      exact absurd this (Nat.lt_irrefl _)
  · exact replace_eq_self_of_no_match _

end OrbitalBackend
